/-
Verification of the Gesture-Glide signal-processing core.

Shallow embedding of the Python sources:
  * `src/smoothing.py`        — KalmanFilter1D, MovingAverageFilter, EMAFilter1D
  * `src/cursor_controller.py`— CursorController (absolute / relative mapping, clipping)
  * `src/gesture_detector.py` — GestureDetector (drag state machine, clicks, scroll, zoom)

Python floats are modelled as rationals (ℚ); the two genuinely irrational
float operations reached by the cursor code (math.hypot and `**` with a
non-integer exponent) are supplied by the call environment as explicit
function parameters, since no theorem below depends on their values.
A Python exception (IndexError on a short landmark list) is modelled by
an `Option.none` result.  `int(...)` is truncation toward zero, `//` is
floor division, and Python 3 `round` is round-half-to-even.
-/
import Mathlib

/-- Python 3 `round` on a rational: round half to even. -/
def roundHalfEven (q : ℚ) : ℤ :=
  let f : ℤ := ⌊q⌋
  let r : ℚ := q - f
  if r < 1/2 then f
  else if 1/2 < r then f + 1
  else if Even f then f else f + 1

/-- Python `int(...)` on a rational: truncation toward zero. -/
def truncQ (q : ℚ) : ℤ :=
  if 0 ≤ q then ⌊q⌋ else -⌊-q⌋

theorem roundHalfEven_intCast (k : ℤ) : roundHalfEven (k : ℚ) = k := by
  simp [roundHalfEven]

theorem truncQ_intCast (k : ℤ) : truncQ (k : ℚ) = k := by
  rcases le_or_lt 0 (k : ℚ) with h | h
  · simp [truncQ, h]
  · have hn : ¬ (0 : ℚ) ≤ (k : ℚ) := not_le.mpr h
    simp only [truncQ, hn, if_false]
    rw [show (-(k : ℚ)) = ((-k : ℤ) : ℚ) by push_cast; ring]
    rw [Int.floor_intCast]
    omega

/-! ## src/smoothing.py -/

/-- State of `KalmanFilter1D` (src/smoothing.py).  `estimate = none`
models the Python `None` before the first measurement. -/
structure KalmanFilter1D where
  processNoise : ℚ
  measurementNoise : ℚ
  estimate : Option ℚ
  errorCov : ℚ
  deriving Repr, DecidableEq

namespace KalmanFilter1D

/-- `KalmanFilter1D.__init__`. -/
def init (processNoise measurementNoise : ℚ) : KalmanFilter1D :=
  { processNoise := processNoise, measurementNoise := measurementNoise,
    estimate := none, errorCov := 1 }

/-- `KalmanFilter1D.filter`: returns the output and the updated state. -/
def filter (kf : KalmanFilter1D) (measurement : ℚ) : ℚ × KalmanFilter1D :=
  match kf.estimate with
  | none => (measurement, { kf with estimate := some measurement, errorCov := 1 })
  | some e =>
      let predErrorCov := kf.errorCov + kf.processNoise
      let K := predErrorCov / (predErrorCov + kf.measurementNoise)
      let e' := e + K * (measurement - e)
      (e', { kf with estimate := some e', errorCov := (1 - K) * predErrorCov })

/-- `KalmanFilter1D.reset(value?)`. -/
def reset (kf : KalmanFilter1D) (value : Option ℚ) : KalmanFilter1D :=
  { kf with estimate := value, errorCov := 1 }

end KalmanFilter1D

/-- State of `MovingAverageFilter` (src/smoothing.py): the deque with
`maxlen = windowSize` is the list `buffer` (oldest first). -/
structure MovingAverageFilter where
  windowSize : ℕ
  buffer : List ℚ
  sum : ℚ
  deriving Repr, DecidableEq

namespace MovingAverageFilter

/-- `MovingAverageFilter.__init__`: `window_size = max(1, int(window_size))`. -/
def init (windowSize : ℤ) : MovingAverageFilter :=
  { windowSize := (max 1 windowSize).toNat, buffer := [], sum := 0 }

/-- `MovingAverageFilter.filter`: evict the oldest sample when the deque is
full, append, return running sum / length. -/
def filter (f : MovingAverageFilter) (x : ℚ) : ℚ × MovingAverageFilter :=
  let (buf, s) :=
    if f.buffer.length = f.windowSize then (f.buffer.tail, f.sum - f.buffer.headD 0)
    else (f.buffer, f.sum)
  let buf' := buf ++ [x]
  let s' := s + x
  (s' / buf'.length, { f with buffer := buf', sum := s' })

/-- `MovingAverageFilter.reset`. -/
def reset (f : MovingAverageFilter) : MovingAverageFilter :=
  { f with buffer := [], sum := 0 }

/-- Run the filter over a list of inputs, collecting the outputs. -/
def run (f : MovingAverageFilter) : List ℚ → List ℚ × MovingAverageFilter
  | [] => ([], f)
  | x :: xs =>
      let (y, f') := f.filter x
      let (ys, f'') := f'.run xs
      (y :: ys, f'')

end MovingAverageFilter

/-- State of `EMAFilter1D` (src/smoothing.py). -/
structure EMAFilter1D where
  alpha : ℚ
  value : Option ℚ
  deriving Repr, DecidableEq

namespace EMAFilter1D

def init (alpha : ℚ) : EMAFilter1D := { alpha := alpha, value := none }

def filter (f : EMAFilter1D) (x : ℚ) : ℚ × EMAFilter1D :=
  match f.value with
  | none => (x, { f with value := some x })
  | some v =>
      let v' := f.alpha * x + (1 - f.alpha) * v
      (v', { f with value := some v' })

def reset (f : EMAFilter1D) (value : Option ℚ) : EMAFilter1D :=
  { f with value := value }

end EMAFilter1D

/-! ## src/gesture_detector.py -/

/-- One 3D landmark (x, y, z). -/
structure Point3 where
  x : ℚ
  y : ℚ
  z : ℚ
  deriving Repr, DecidableEq

/-- The metric used by the detector.  `src/utils.py::euclidean_distance`
computes a float square root, which has no exact rational counterpart, so
the distance function is a parameter of the embedding; every theorem below
holds for an arbitrary `Dist`, and concrete instances use axis-aligned
points on which the Euclidean distance is exactly `|Δx|`. -/
def DistFn := Point3 → Point3 → ℚ

/-- `euclidean_distance` restricted to points that differ only in `x`
(where the float square root is exact). -/
def distX : DistFn := fun p q => |p.x - q.x|

inductive DragState where
  | RELEASED
  | HELD
  | DRAGGING
  deriving Repr, DecidableEq

inductive Gesture where
  | LEFT_CLICK
  | RIGHT_CLICK
  | MIDDLE_CLICK
  | DRAG_START
  | DRAG_MOVE
  | DRAG_END
  | ZOOM_IN
  | ZOOM_OUT
  | SCROLL_UP
  | SCROLL_DOWN
  | SCROLL_LEFT
  | SCROLL_RIGHT
  deriving Repr, DecidableEq

/-- Is the gesture one of the drag-lifecycle events? -/
def Gesture.isDragEvent : Gesture → Bool
  | .DRAG_START => true
  | .DRAG_MOVE => true
  | .DRAG_END => true
  | _ => false

/-- Is the gesture one of the four scroll events? -/
def Gesture.isScroll : Gesture → Bool
  | .SCROLL_UP => true
  | .SCROLL_DOWN => true
  | .SCROLL_LEFT => true
  | .SCROLL_RIGHT => true
  | _ => false

/-- State of `GestureDetector` (src/gesture_detector.py).  `gestureTimers`
models the Python dict `self.gesture_timers` with `.get(g, 0)` access, as a
total function defaulting to 0. -/
structure GestureDetector where
  pinchThresh : ℚ
  threeFingerPinchThresh : ℚ
  clickDebounceMs : ℚ
  dragHoldMs : ℚ
  zoomDebounceMs : ℚ
  scrollDebounceMs : ℚ
  zoomDeltaThresh : ℚ
  scrollDeltaY : ℚ
  scrollDeltaX : ℚ
  gestureTimers : String → ℚ
  lastLandmarks : Option (List Point3)
  dragState : DragState
  dragStartTime : ℚ
  lastZoomDist : ℚ
  lastScrollY : ℚ
  lastScrollX : ℚ

namespace GestureDetector

/-- `GestureDetector.__init__` with the documented config defaults
(`pinch_threshold_min` 2.0 cm, `three_finger_pinch_min` 2.5 cm, converted
to meters by `CM_TO_METERS = 0.01`, etc.). -/
def init : GestureDetector :=
  { pinchThresh := 2 * (1/100)
    threeFingerPinchThresh := 5/2 * (1/100)
    clickDebounceMs := 100
    dragHoldMs := 200
    zoomDebounceMs := 50
    scrollDebounceMs := 100
    zoomDeltaThresh := 3/2 * (1/100)
    scrollDeltaY := 3/100
    scrollDeltaX := 3/100
    gestureTimers := fun _ => 0
    lastLandmarks := none
    dragState := .RELEASED
    dragStartTime := 0
    lastZoomDist := 0
    lastScrollY := 0
    lastScrollX := 0 }

/-- `self.gesture_timers[gesture] = current_time_ms`: pointwise update of
the timer map. -/
def setTimer (f : String → ℚ) (g : String) (now : ℚ) : String → ℚ :=
  fun g' => if g' = g then now else f g'

theorem setTimer_same (f : String → ℚ) (g : String) (now : ℚ) :
    setTimer f g now g = now := by
  simp [setTimer]

theorem setTimer_other (f : String → ℚ) (g g' : String) (now : ℚ) (h : g' ≠ g) :
    setTimer f g now g' = f g' := by
  simp [setTimer, h]

/-- `GestureDetector._is_ready`, acting on the timer map it reads and
writes (`self.gesture_timers`): strict comparison, timer written only on
success.  `now` is `time.time() * 1000`. -/
def isReady (timers : String → ℚ) (now : ℚ) (g : String) (debounceMs : ℚ) :
    Bool × (String → ℚ) :=
  let lastTime := timers g
  if debounceMs < now - lastTime then
    (true, setTimer timers g now)
  else
    (false, timers)

/-- The fields assigned by the drag/zoom block of `GestureDetector.detect`
(the RELEASED/HELD/DRAGGING state machine on the thumb–index pinch):
gesture, `self.drag_state`, `self.drag_start_time`, `self.last_zoom_dist`
and `self.gesture_timers`. -/
structure DragResult where
  gesture : Option Gesture
  dragState : DragState
  dragStartTime : ℚ
  lastZoomDist : ℚ
  timers : String → ℚ

/-- The drag/zoom block of `GestureDetector.detect`. -/
def dragStep (st : GestureDetector) (now : ℚ) (isDragPinch : Bool)
    (thumbIndexDist : ℚ) : DragResult :=
  match st.dragState with
  | .RELEASED =>
      if isDragPinch then
        ⟨none, .HELD, now, st.lastZoomDist, st.gestureTimers⟩
      else ⟨none, .RELEASED, st.dragStartTime, st.lastZoomDist, st.gestureTimers⟩
  | .HELD =>
      if isDragPinch then
        if st.dragHoldMs < now - st.dragStartTime then
          ⟨some .DRAG_START, .DRAGGING, st.dragStartTime, st.lastZoomDist, st.gestureTimers⟩
        else ⟨none, .HELD, st.dragStartTime, st.lastZoomDist, st.gestureTimers⟩
      else
        let gt : Option Gesture × (String → ℚ) :=
          match st.lastLandmarks with
          | none => (none, st.gestureTimers)
          | some _ =>
              let zd := thumbIndexDist - st.lastZoomDist
              if st.zoomDeltaThresh < |zd| then
                let r := isReady st.gestureTimers now "ZOOM" st.zoomDebounceMs
                (if r.1 then some (if zd < 0 then Gesture.ZOOM_IN else Gesture.ZOOM_OUT)
                 else none, r.2)
              else (none, st.gestureTimers)
        ⟨gt.1, .RELEASED, st.dragStartTime, thumbIndexDist, gt.2⟩
  | .DRAGGING =>
      if isDragPinch then
        ⟨some .DRAG_MOVE, .DRAGGING, st.dragStartTime, st.lastZoomDist, st.gestureTimers⟩
      else ⟨some .DRAG_END, .RELEASED, st.dragStartTime, st.lastZoomDist, st.gestureTimers⟩

/-- The click/scroll block of `GestureDetector.detect` (runs only when not
dragging and no gesture was produced by the drag block).  It assigns only
the gesture and `self.gesture_timers`. -/
def clickScrollStep (st : GestureDetector) (now : ℚ) (allThreePinch : Bool)
    (middleRingDist indexMiddleDist currentScrollY currentScrollX : ℚ) :
    Option Gesture × (String → ℚ) :=
  if allThreePinch then
    let r := isReady st.gestureTimers now "MIDDLE_CLICK" st.clickDebounceMs
    (if r.1 then some .MIDDLE_CLICK else none, r.2)
  else if middleRingDist < st.pinchThresh then
    let r := isReady st.gestureTimers now "RIGHT_CLICK" st.clickDebounceMs
    (if r.1 then some .RIGHT_CLICK else none, r.2)
  else if indexMiddleDist < st.pinchThresh then
    let r := isReady st.gestureTimers now "LEFT_CLICK" st.clickDebounceMs
    (if r.1 then some .LEFT_CLICK else none, r.2)
  else
    match st.lastLandmarks with
    | none => (none, st.gestureTimers)
    | some _ =>
        let scrollYDelta := currentScrollY - st.lastScrollY
        let scrollXDelta := currentScrollX - st.lastScrollX
        if st.scrollDeltaY < |scrollYDelta| then
          let r := isReady st.gestureTimers now "SCROLL" st.scrollDebounceMs
          if r.1 then
            (some (if 0 < scrollYDelta then Gesture.SCROLL_DOWN else Gesture.SCROLL_UP), r.2)
          else
            if st.scrollDeltaX < |scrollXDelta| then
              let r2 := isReady r.2 now "SCROLL" st.scrollDebounceMs
              (if r2.1 then
                 some (if 0 < scrollXDelta then Gesture.SCROLL_RIGHT else Gesture.SCROLL_LEFT)
               else none, r2.2)
            else (none, r.2)
        else
          if st.scrollDeltaX < |scrollXDelta| then
            let r := isReady st.gestureTimers now "SCROLL" st.scrollDebounceMs
            (if r.1 then
               some (if 0 < scrollXDelta then Gesture.SCROLL_RIGHT else Gesture.SCROLL_LEFT)
             else none, r.2)
          else (none, st.gestureTimers)

/-- Body of `GestureDetector.detect` once the four fingertip lookups have
succeeded: the drag/zoom block, then the click/scroll block, then the
end-of-frame baseline updates. -/
def detectCore (st : GestureDetector) (d : DistFn) (now : ℚ) (lms : List Point3)
    (thumbTip indexTip middleTip ringTip : Point3) :
    Option Gesture × GestureDetector :=
  let thumbIndexDist := d thumbTip indexTip
  let indexMiddleDist := d indexTip middleTip
  let middleRingDist := d middleTip ringTip
  let allThreePinch :=
    decide (indexMiddleDist < st.threeFingerPinchThresh) &&
    decide (middleRingDist < st.threeFingerPinchThresh)
  let currentScrollY := (indexTip.y + middleTip.y) / 2
  let currentScrollX := (indexTip.x + middleTip.x) / 2
  let isDragPinch := decide (thumbIndexDist < st.pinchThresh)
  let dr := st.dragStep now isDragPinch thumbIndexDist
  let st1 := { st with dragState := dr.dragState, dragStartTime := dr.dragStartTime,
                       lastZoomDist := dr.lastZoomDist, gestureTimers := dr.timers }
  let cs :=
    if dr.dragState ≠ DragState.DRAGGING ∧ dr.gesture = none then
      st1.clickScrollStep now allThreePinch middleRingDist indexMiddleDist
        currentScrollY currentScrollX
    else (dr.gesture, dr.timers)
  let st2 := { st1 with gestureTimers := cs.2 }
  let st3 := if isDragPinch then st2 else { st2 with lastZoomDist := thumbIndexDist }
  (cs.1, { st3 with lastScrollY := currentScrollY, lastScrollX := currentScrollX,
                    lastLandmarks := some lms })


/-- `GestureDetector.detect`.  Indexing `landmarks[4] / [8] / [12] / [16]`
raises `IndexError` on a short list; the raised exception is modelled by
`none`. -/
def detect (st : GestureDetector) (d : DistFn) (now : ℚ) (lms : List Point3) :
    Option (Option Gesture × GestureDetector) :=
  match lms.get? 4, lms.get? 8, lms.get? 12, lms.get? 16 with
  | some thumbTip, some indexTip, some middleTip, some ringTip =>
      some (st.detectCore d now lms thumbTip indexTip middleTip ringTip)
  | _, _, _, _ => none

/-- Run `detect` over a list of (timestamp, frame) pairs, collecting the
per-frame gestures; stops with `none` if any frame raises. -/
def run (st : GestureDetector) (d : DistFn) :
    List (ℚ × List Point3) → Option (List (Option Gesture) × GestureDetector)
  | [] => some ([], st)
  | (now, lms) :: rest =>
      match st.detect d now lms with
      | none => none
      | some (g, st') =>
          match st'.run d rest with
          | none => none
          | some (gs, st'') => some (g :: gs, st'')

end GestureDetector

/-! ## src/cursor_controller.py -/

/-- The final position filter: `self.filter_x` is a `KalmanFilter1D` or a
`MovingAverageFilter` depending on configuration. -/
inductive PosFilter where
  | kalman (kf : KalmanFilter1D)
  | movAvg (f : MovingAverageFilter)
  deriving Repr, DecidableEq

namespace PosFilter

def filter : PosFilter → ℚ → ℚ × PosFilter
  | .kalman kf, x => let (y, kf') := kf.filter x; (y, .kalman kf')
  | .movAvg f, x => let (y, f') := f.filter x; (y, .movAvg f')

/-- `reset()` with no argument (both filter classes have one). -/
def reset : PosFilter → PosFilter
  | .kalman kf => .kalman (kf.reset none)
  | .movAvg f => .movAvg f.reset

end PosFilter

/-- What `CursorController._detect_virtual_screen` returns:
(origin_x, origin_y, width, height, offset_x, offset_y). -/
structure Geometry where
  ox : ℤ
  oy : ℤ
  w : ℤ
  h : ℤ
  offx : ℤ
  offy : ℤ
  deriving Repr, DecidableEq

/-- The environment of one `update_position` call: the wall clock
(`time.perf_counter()`), the geometry a probe would detect, the OS pointer
position (`pyautogui.position()`, `none` when unavailable or failing), and
the two float operations with no exact rational counterpart
(`math.hypot` and non-integer `**`). -/
structure CursorEnv where
  now : ℚ
  detected : Geometry
  pointer : Option (ℤ × ℤ)
  hypot : ℚ → ℚ → ℚ
  powf : ℚ → ℚ → ℚ

/-- State of `CursorController` (src/cursor_controller.py). -/
structure CursorController where
  originX : ℤ
  originY : ℤ
  screenWidth : ℤ
  screenHeight : ℤ
  coordOffsetX : ℤ
  coordOffsetY : ℤ
  filterX : PosFilter
  filterY : PosFilter
  useRelative : Bool
  sensitivity : ℚ
  acceleration : ℚ
  accelExponent : ℚ
  maxGain : ℚ
  lowSpeedThreshold : ℚ
  lowSpeedBoost : ℚ
  deadz : ℚ
  speedMultiplier : ℚ
  emaDx : Option EMAFilter1D
  emaDy : Option EMAFilter1D
  refreshSecs : ℚ
  lastDetectTs : ℚ
  lastNormX : Option ℚ
  lastNormY : Option ℚ
  lastAbsX : Option ℚ
  lastAbsY : Option ℚ
  lastTs : Option ℚ

namespace CursorController

/-- `CursorController._normalize_offsets_for_os`. -/
def normalizeOffsetsForOs (osName : String) (ox oy : ℤ) : ℤ × ℤ :=
  if osName = "Linux" ∧ (ox < 0 ∨ oy < 0) then (-ox, -oy) else (0, 0)

/-- `CursorController._clip_to_bounds`. -/
def clipToBounds (c : CursorController) (x y : ℤ) : ℤ × ℤ :=
  let minX := c.originX + c.coordOffsetX
  let minY := c.originY + c.coordOffsetY
  let maxX := c.originX + c.coordOffsetX + c.screenWidth - 1
  let maxY := c.originY + c.coordOffsetY + c.screenHeight - 1
  (min maxX (max minX x), min maxY (max minY y))

/-- `CursorController._map_normalized_to_screen` (and the public
`map_normalized_to_screen` wrapper). -/
def mapNormalizedToScreen (c : CursorController) (nx ny : ℚ) : ℤ × ℤ :=
  let nx := min 1 (max 0 nx)
  let ny := min 1 (max 0 ny)
  let x := c.originX + roundHalfEven (nx * ((c.screenWidth : ℚ) - 1)) + c.coordOffsetX
  let y := c.originY + roundHalfEven (ny * ((c.screenHeight : ℚ) - 1)) + c.coordOffsetY
  c.clipToBounds x y

/-- `CursorController._maybe_refresh_virtual_screen`. -/
def maybeRefresh (c : CursorController) (env : CursorEnv) : CursorController :=
  if env.now - c.lastDetectTs < c.refreshSecs then c
  else
    let c1 := { c with lastDetectTs := env.now }
    let g := env.detected
    if g.ox = c1.originX ∧ g.oy = c1.originY ∧ g.w = c1.screenWidth ∧
       g.h = c1.screenHeight ∧ g.offx = c1.coordOffsetX ∧ g.offy = c1.coordOffsetY then
      c1
    else
      let c2 := { c1 with originX := g.ox, originY := g.oy, screenWidth := g.w,
                          screenHeight := g.h, coordOffsetX := g.offx, coordOffsetY := g.offy }
      match c2.lastAbsX, c2.lastAbsY with
      | some ax, some ay =>
          let (xc, yc) := c2.clipToBounds (truncQ ax) (truncQ ay)
          { c2 with lastAbsX := some (xc : ℚ), lastAbsY := some (yc : ℚ) }
      | _, _ => c2

/-- `CursorController._current_pointer_or_center`.  `//` is Python floor
division. -/
def currentPointerOrCenter (c : CursorController) (env : CursorEnv) : ℤ × ℤ :=
  match env.pointer with
  | some p => p
  | none => (c.originX + c.screenWidth.fdiv 2, c.originY + c.screenHeight.fdiv 2)

/-- `CursorController._seed_relative_state`. -/
def seedRelativeState (c : CursorController) (now nx ny : ℚ) (xAbs yAbs : ℤ) :
    CursorController :=
  let c1 := { c with lastNormX := some nx, lastNormY := some ny,
                     lastAbsX := some (xAbs : ℚ), lastAbsY := some (yAbs : ℚ),
                     lastTs := some now,
                     emaDx := c.emaDx.map (fun f : EMAFilter1D => f.reset (some 0)),
                     emaDy := c.emaDy.map (fun f : EMAFilter1D => f.reset (some 0)),
                     filterX := c.filterX.reset, filterY := c.filterY.reset }
  { c1 with filterX := (c1.filterX.filter (xAbs : ℚ)).2,
            filterY := (c1.filterY.filter (yAbs : ℚ)).2 }

/-- `CursorController.update_position`.  `landmarks[12]` raising on a
short list is modelled by `none`. -/
def updatePosition (c₀ : CursorController) (env : CursorEnv) (lms : List Point3) :
    Option ((ℤ × ℤ) × CursorController) :=
  let c := c₀.maybeRefresh env
  match lms.get? 12 with
  | none => none
  | some middle =>
    let nx := 1 - middle.x
    let ny := middle.y
    if c.useRelative = false then
      let ab := c.mapNormalizedToScreen nx ny
      let fx := c.filterX.filter (ab.1 : ℚ)
      let fy := c.filterY.filter (ab.2 : ℚ)
      let c1 := { c with filterX := fx.2, filterY := fy.2 }
      let pC := c1.clipToBounds (truncQ fx.1) (truncQ fy.1)
      some (pC, c1.seedRelativeState env.now nx ny pC.1 pC.2)
    else
      let now := env.now
      match c.lastNormX, c.lastNormY with
      | some lnx, some lny =>
        let dt := max (1/1000)
          (now - (match c.lastTs with | none => now | some t => if t = 0 then now else t))
        let dxRaw := nx - lnx
        let dyRaw := ny - lny
        let dxN := if |dxRaw| < c.deadz then 0 else dxRaw
        let dyN := if |dyRaw| < c.deadz then 0 else dyRaw
        if dxN = 0 ∧ dyN = 0 then
          match c.lastAbsX, c.lastAbsY with
          | some ax, some ay => some ((truncQ ax, truncQ ay), c)
          | _, _ =>
            let p0 := c.currentPointerOrCenter env
            some (p0, c.seedRelativeState now nx ny p0.1 p0.2)
        else
          let speedNorm := env.hypot dxN dyN / dt
          let gain1 :=
            if 0 < c.acceleration then
              c.sensitivity * (1 + c.acceleration * env.powf speedNorm c.accelExponent)
            else c.sensitivity
          let gain2 := if speedNorm < c.lowSpeedThreshold then gain1 * c.lowSpeedBoost else gain1
          let gain := min c.maxGain (max (1/10) (gain2 * c.speedMultiplier))
          let sx : ℚ := ((c.screenWidth - 1 : ℤ) : ℚ)
          let sy : ℚ := ((c.screenHeight - 1 : ℤ) : ℚ)
          let dxPx0 := dxN * sx * gain
          let dyPx0 := dyN * sy * gain
          let ex : ℚ × Option EMAFilter1D :=
            match c.emaDx with
            | some f => ((f.filter dxPx0).1, some (f.filter dxPx0).2)
            | none => (dxPx0, none)
          let ey : ℚ × Option EMAFilter1D :=
            match c.emaDy with
            | some f => ((f.filter dyPx0).1, some (f.filter dyPx0).2)
            | none => (dyPx0, none)
          let baseX : ℚ :=
            match c.lastAbsX with
            | some ax => ax
            | none => ((c.originX + c.screenWidth.fdiv 2 : ℤ) : ℚ)
          let baseY : ℚ :=
            match c.lastAbsY with
            | some ay => ay
            | none => ((c.originY + c.screenHeight.fdiv 2 : ℤ) : ℚ)
          let fx := c.filterX.filter (baseX + ex.1)
          let fy := c.filterY.filter (baseY + ey.1)
          let c1 := { c with filterX := fx.2, filterY := fy.2, emaDx := ex.2, emaDy := ey.2 }
          let pC := c1.clipToBounds (truncQ fx.1) (truncQ fy.1)
          some (pC,
            { c1 with lastNormX := some nx, lastNormY := some ny,
                      lastAbsX := some (pC.1 : ℚ), lastAbsY := some (pC.2 : ℚ),
                      lastTs := some now })
      | _, _ =>
        let p0 := c.currentPointerOrCenter env
        some (p0, c.seedRelativeState now nx ny p0.1 p0.2)

/-- The effective emitted-coordinate bounds: the stored origin shifted by
the stored coordinate offsets, extending over the stored size. -/
def inBounds (c : CursorController) (p : ℤ × ℤ) : Prop :=
  (c.originX + c.coordOffsetX ≤ p.1 ∧ p.1 ≤ c.originX + c.coordOffsetX + c.screenWidth - 1) ∧
  (c.originY + c.coordOffsetY ≤ p.2 ∧ p.2 ≤ c.originY + c.coordOffsetY + c.screenHeight - 1)

instance (c : CursorController) (p : ℤ × ℤ) : Decidable (c.inBounds p) := by
  unfold inBounds; infer_instance

end CursorController

/-! ## List suffix helper -/

/-- The most recent `n` entries of a list (all of it when shorter). -/
def lastN (n : ℕ) (l : List ℚ) : List ℚ := l.drop (l.length - n)

theorem lastN_length (n : ℕ) (l : List ℚ) : (lastN n l).length = min n l.length := by
  simp [lastN]; omega

theorem lastN_of_le (n : ℕ) (l : List ℚ) (h : l.length ≤ n) : lastN n l = l := by
  simp [lastN, Nat.sub_eq_zero_of_le h]

theorem lastN_min (n : ℕ) (l : List ℚ) : lastN n l = lastN (min l.length n) l := by
  unfold lastN
  congr 1
  omega

theorem lastN_append_full (n : ℕ) (l : List ℚ) (x : ℚ) (h1 : 1 ≤ n) (h2 : n ≤ l.length) :
    lastN n (l ++ [x]) = (lastN n l).tail ++ [x] := by
  unfold lastN
  have hlen : (l ++ [x]).length = l.length + 1 := by simp
  rw [hlen, List.drop_append_of_le_length (by omega), List.tail_drop]
  congr 2
  omega

theorem tail_append_sum (b : List ℚ) (x : ℚ) (h : b ≠ []) :
    (b.tail ++ [x]).sum = b.sum - b.headD 0 + x := by
  cases b with
  | nil => exact absurd rfl h
  | cons a t => simp [List.sum_cons]
namespace MovingAverageFilter

theorem filter_eq_full (f : MovingAverageFilter) (x : ℚ)
    (h : f.buffer.length = f.windowSize) :
    f.filter x = ((f.sum - f.buffer.headD 0 + x) / ((f.buffer.tail ++ [x]).length : ℕ),
      { f with buffer := f.buffer.tail ++ [x], sum := f.sum - f.buffer.headD 0 + x }) := by
  simp [filter, h]

theorem filter_eq_notfull (f : MovingAverageFilter) (x : ℚ)
    (h : ¬ f.buffer.length = f.windowSize) :
    f.filter x = ((f.sum + x) / ((f.buffer ++ [x]).length : ℕ),
      { f with buffer := f.buffer ++ [x], sum := f.sum + x }) := by
  simp [filter, h]

/-- One `filter` step preserves the buffer/sum invariant and returns the
mean of the most recent `min (|hist| + 1) windowSize` samples. -/
theorem filter_inv (f : MovingAverageFilter) (hist : List ℚ) (x : ℚ)
    (hw : 1 ≤ f.windowSize)
    (hbuf : f.buffer = lastN f.windowSize hist)
    (hsum : f.sum = f.buffer.sum) :
    (f.filter x).2.buffer = lastN f.windowSize (hist ++ [x]) ∧
    (f.filter x).2.sum = (f.filter x).2.buffer.sum ∧
    (f.filter x).2.windowSize = f.windowSize ∧
    (f.filter x).1 =
      (lastN f.windowSize (hist ++ [x])).sum / (min (hist.length + 1) f.windowSize) := by
  have hblen : f.buffer.length = min f.windowSize hist.length := by
    rw [hbuf, lastN_length]
  by_cases hfull : f.buffer.length = f.windowSize
  · -- deque full: evict the oldest sample
    have hWle : f.windowSize ≤ hist.length := by omega
    have hne : f.buffer ≠ [] := by
      intro h
      rw [h] at hfull
      simp at hfull
      omega
    have hb' : lastN f.windowSize (hist ++ [x]) = f.buffer.tail ++ [x] := by
      rw [hbuf, ← lastN_append_full _ _ _ hw hWle]
    have hlen' : (f.buffer.tail ++ [x]).length = f.windowSize := by
      simp [List.length_tail]
      omega
    have hmin : min (hist.length + 1) f.windowSize = f.windowSize := by omega
    have hs : (f.buffer.tail ++ [x]).sum = f.sum - f.buffer.headD 0 + x := by
      rw [hsum]; exact tail_append_sum _ _ hne
    rw [filter_eq_full f x hfull]
    refine ⟨hb'.symm ▸ rfl, ?_, rfl, ?_⟩
    · simp [hs]
    · simp only [hb', hs, hmin, hlen']
  · -- deque not yet full
    have hlt : hist.length < f.windowSize := by omega
    have hall : lastN f.windowSize hist = hist := lastN_of_le _ _ (by omega)
    have hall' : lastN f.windowSize (hist ++ [x]) = hist ++ [x] :=
      lastN_of_le _ _ (by simp; omega)
    have hmin : min (hist.length + 1) f.windowSize = hist.length + 1 := by omega
    rw [filter_eq_notfull f x hfull]
    refine ⟨?_, ?_, rfl, ?_⟩
    · simp [hbuf, hall, hall']
    · simp [hbuf, hall, hsum]
    · rw [hall', hmin, hbuf, hall, hsum, hbuf, hall]
      simp

/-- `run` outputs, relative to an arbitrary processed history satisfying
the invariant. -/
theorem run_get (f : MovingAverageFilter) (hist : List ℚ)
    (hw : 1 ≤ f.windowSize)
    (hbuf : f.buffer = lastN f.windowSize hist)
    (hsum : f.sum = f.buffer.sum) :
    ∀ (xs : List ℚ) (k : ℕ), k < xs.length →
      (f.run xs).1.get? k =
        some ((lastN f.windowSize (hist ++ xs.take (k+1))).sum /
              (min (hist.length + (k + 1)) f.windowSize)) := by
  intro xs
  induction xs generalizing f hist with
  | nil => intro k hk; simp at hk
  | cons x rest ih =>
      intro k hk
      obtain ⟨h1, h2, h3, h4⟩ := filter_inv f hist x hw hbuf hsum
      have hrun : (f.run (x :: rest)).1 = (f.filter x).1 :: ((f.filter x).2.run rest).1 := by
        simp [run]
      cases k with
      | zero =>
          rw [hrun]
          simp only [List.get?]
          rw [h4]
          simp
      | succ k =>
          have hk' : k < rest.length := by simpa using hk
          have ihx := ih (f.filter x).2 (hist ++ [x]) (by omega) (by rw [h1, h3]) h2 k hk'
          rw [hrun]
          simp only [List.get?]
          rw [ihx, h3]
          have harr : hist ++ [x] ++ rest.take (k+1) = hist ++ (x :: rest).take (k+1+1) := by
            simp [List.take]
          rw [harr]
          have hlen2 : (hist ++ [x]).length + (k+1) = hist.length + (k+1+1) := by
            simp; omega
          rw [hlen2]

end MovingAverageFilter

/-- C10: `MovingAverageFilter` clamps its window size to at least 1 at
construction, so for every constructor argument (including zero and
negative values) and every input sequence the filter never divides by
zero: the k-th output is the arithmetic mean of the most recent
`min (k+1, windowSize)` samples, a set of at least one sample. -/
theorem C10_movingAverage_mean (w : ℤ) (xs : List ℚ) (k : ℕ) (hk : k < xs.length) :
    1 ≤ (MovingAverageFilter.init w).windowSize ∧
    1 ≤ min (k + 1) (MovingAverageFilter.init w).windowSize ∧
    ((MovingAverageFilter.init w).run xs).1.get? k =
      some ((lastN (min (k + 1) (MovingAverageFilter.init w).windowSize) (xs.take (k+1))).sum /
            (min (k + 1) (MovingAverageFilter.init w).windowSize)) := by
  have hw : 1 ≤ (MovingAverageFilter.init w).windowSize := by
    simp [MovingAverageFilter.init]
  refine ⟨hw, by omega, ?_⟩
  have h := MovingAverageFilter.run_get (MovingAverageFilter.init w) [] hw
    (by simp [MovingAverageFilter.init, lastN]) (by simp [MovingAverageFilter.init]) xs k hk
  rw [h]
  have hlen : (xs.take (k+1)).length = k + 1 := by
    simp
    omega
  have hN : lastN (MovingAverageFilter.init w).windowSize (xs.take (k+1)) =
      lastN (min (k + 1) (MovingAverageFilter.init w).windowSize) (xs.take (k+1)) := by
    rw [lastN_min ((MovingAverageFilter.init w).windowSize), hlen]
  simp only [List.nil_append, List.length_nil, Nat.zero_add, hN]

/-- C10 witness: window size 0 (clamped to 1), inputs [3, 5], second
output is the mean of the single most recent sample. -/
theorem C10_movingAverage_mean_witness :
    (1 : ℕ) < [(3 : ℚ), 5].length ∧
    (1 ≤ (MovingAverageFilter.init 0).windowSize ∧
     1 ≤ min (1 + 1) (MovingAverageFilter.init 0).windowSize ∧
     ((MovingAverageFilter.init 0).run [(3 : ℚ), 5]).1.get? 1 =
       some ((lastN (min (1 + 1) (MovingAverageFilter.init 0).windowSize)
                ([(3 : ℚ), 5].take 2)).sum /
             (min (1 + 1) (MovingAverageFilter.init 0).windowSize))) :=
  ⟨by decide, C10_movingAverage_mean 0 [(3 : ℚ), 5] 1 (by decide)⟩

/-- C7: a fresh `KalmanFilter1D` has no estimate; the first `filter(m)`
call returns `m` unchanged (and seeds the state); each subsequent call
updates by predictedError = lastError + processNoise,
gain = predictedError / (predictedError + measurementNoise),
estimate' = estimate + gain × (m − estimate),
error' = (1 − gain) × predictedError, returning estimate'. -/
theorem C7_kalman_filter_spec (pn mn m : ℚ) :
    (KalmanFilter1D.init pn mn).estimate = none ∧
    (∀ st : KalmanFilter1D, st.estimate = none →
      (st.filter m).1 = m ∧ (st.filter m).2.estimate = some m) ∧
    (∀ (st : KalmanFilter1D) (e : ℚ), st.estimate = some e →
      (st.filter m).1 =
        e + (st.errorCov + st.processNoise) /
            ((st.errorCov + st.processNoise) + st.measurementNoise) * (m - e) ∧
      (st.filter m).2.estimate = some ((st.filter m).1) ∧
      (st.filter m).2.errorCov =
        (1 - (st.errorCov + st.processNoise) /
             ((st.errorCov + st.processNoise) + st.measurementNoise)) *
          (st.errorCov + st.processNoise)) := by
  refine ⟨rfl, ?_, ?_⟩
  · intro st h
    simp [KalmanFilter1D.filter, h]
  · intro st e h
    simp [KalmanFilter1D.filter, h]

/-- C7 witness: concrete first and second calls with the default noise
parameters. -/
theorem C7_kalman_filter_spec_witness :
    ((KalmanFilter1D.mk (1/10) 4 none 1).filter 7).1 = 7 ∧
    ((KalmanFilter1D.mk (1/10) 4 (some 2) 1).filter 7).1 =
      2 + (1 + 1/10) / ((1 + 1/10) + 4) * (7 - 2) := by
  refine ⟨((C7_kalman_filter_spec (1/10) 4 7).2.1 _ rfl).1, ?_⟩
  have h := ((C7_kalman_filter_spec (1/10) 4 7).2.2 (KalmanFilter1D.mk (1/10) 4 (some 2) 1) 2 rfl).1
  simpa using h

/-! ## Cursor-mapping theorems -/

namespace CursorController

theorem clipToBounds_inBounds (c : CursorController) (hw : 1 ≤ c.screenWidth)
    (hh : 1 ≤ c.screenHeight) (x y : ℤ) : c.inBounds (c.clipToBounds x y) := by
  unfold clipToBounds inBounds
  dsimp only
  refine ⟨⟨?_, ?_⟩, ⟨?_, ?_⟩⟩ <;> omega

theorem mapNormalizedToScreen_inBounds (c : CursorController) (hw : 1 ≤ c.screenWidth)
    (hh : 1 ≤ c.screenHeight) (nx ny : ℚ) :
    c.inBounds (c.mapNormalizedToScreen nx ny) := by
  unfold mapNormalizedToScreen
  exact clipToBounds_inBounds c hw hh _ _

theorem maybeRefresh_not_elapsed (c : CursorController) (env : CursorEnv)
    (h : env.now - c.lastDetectTs < c.refreshSecs) : c.maybeRefresh env = c := by
  unfold maybeRefresh
  rw [if_pos h]

end CursorController

/-- The controller state of the C5 scenario: virtual desktop origin
(−1920, 0), size 3840×1080, with the coordinate offsets the code itself
computes on Linux (`_normalize_offsets_for_os("Linux", -1920, 0)`), in
absolute mode with the default configuration values. -/
def linuxWideState : CursorController :=
  { originX := -1920, originY := 0, screenWidth := 3840, screenHeight := 1080,
    coordOffsetX := (CursorController.normalizeOffsetsForOs "Linux" (-1920) 0).1,
    coordOffsetY := (CursorController.normalizeOffsetsForOs "Linux" (-1920) 0).2,
    filterX := .kalman (KalmanFilter1D.init (1/10) 4),
    filterY := .kalman (KalmanFilter1D.init (1/10) 4),
    useRelative := false,
    sensitivity := 12/5, acceleration := 3/2, accelExponent := 7/5, maxGain := 8,
    lowSpeedThreshold := 3/20, lowSpeedBoost := 11/20, deadz := 3/500,
    speedMultiplier := 1,
    emaDx := some (EMAFilter1D.init (1/4)), emaDy := some (EMAFilter1D.init (1/4)),
    refreshSecs := 5, lastDetectTs := 0,
    lastNormX := none, lastNormY := none, lastAbsX := none, lastAbsY := none,
    lastTs := none }

theorem linuxWideState_offsets :
    linuxWideState.coordOffsetX = 1920 ∧ linuxWideState.coordOffsetY = 0 := by
  constructor <;> rfl

/-- C5: with virtual desktop origin (−1920, 0), size 3840×1080 and the
Linux negative-origin offset normalization, every mapped coordinate is
≥ 0 on both axes, and the full logical range stays reachable: the mapped
x attains every value in [0, 3839] and y every value in [0, 1079]. -/
theorem C5_nonneg_and_full_range :
    (∀ nx ny : ℚ, 0 ≤ (linuxWideState.mapNormalizedToScreen nx ny).1 ∧
                  0 ≤ (linuxWideState.mapNormalizedToScreen nx ny).2) ∧
    (∀ k : ℤ, 0 ≤ k → k ≤ 3839 →
       (linuxWideState.mapNormalizedToScreen ((k : ℚ) / 3839) 0).1 = k) ∧
    (∀ k : ℤ, 0 ≤ k → k ≤ 1079 →
       (linuxWideState.mapNormalizedToScreen 0 ((k : ℚ) / 1079)).2 = k) := by
  have hw : (1 : ℤ) ≤ linuxWideState.screenWidth := by decide
  have hh : (1 : ℤ) ≤ linuxWideState.screenHeight := by decide
  refine ⟨?_, ?_, ?_⟩
  · intro nx ny
    have h := linuxWideState.mapNormalizedToScreen_inBounds hw hh nx ny
    obtain ⟨⟨h1, _⟩, ⟨h2, _⟩⟩ := h
    constructor
    · have : linuxWideState.originX + linuxWideState.coordOffsetX = 0 := by decide
      omega
    · have : linuxWideState.originY + linuxWideState.coordOffsetY = 0 := by decide
      omega
  · intro k hk0 hk1
    have h0 : (0 : ℚ) ≤ (k : ℚ) / 3839 := by positivity
    have h1 : ((k : ℚ)) / 3839 ≤ 1 := by
      rw [div_le_one (by norm_num)]
      exact_mod_cast hk1
    unfold CursorController.mapNormalizedToScreen CursorController.clipToBounds
    dsimp only
    rw [max_eq_right h0, min_eq_right h1]
    have hmul : ((k : ℚ) / 3839) * ((linuxWideState.screenWidth : ℚ) - 1) = (k : ℚ) := by
      have : ((linuxWideState.screenWidth : ℚ) - 1) = 3839 := by norm_num [linuxWideState]
      rw [this]
      field_simp
    rw [hmul, roundHalfEven_intCast]
    have e1 : linuxWideState.originX = -1920 := rfl
    have e2 : linuxWideState.coordOffsetX = 1920 := rfl
    have e3 : linuxWideState.screenWidth = 3840 := rfl
    rw [e1, e2, e3]
    omega
  · intro k hk0 hk1
    have h0 : (0 : ℚ) ≤ (k : ℚ) / 1079 := by positivity
    have h1 : ((k : ℚ)) / 1079 ≤ 1 := by
      rw [div_le_one (by norm_num)]
      exact_mod_cast hk1
    unfold CursorController.mapNormalizedToScreen CursorController.clipToBounds
    dsimp only
    rw [max_eq_right h0, min_eq_right h1]
    have hmul : ((k : ℚ) / 1079) * ((linuxWideState.screenHeight : ℚ) - 1) = (k : ℚ) := by
      have : ((linuxWideState.screenHeight : ℚ) - 1) = 1079 := by norm_num [linuxWideState]
      rw [this]
      field_simp
    rw [hmul, roundHalfEven_intCast]
    have e1 : linuxWideState.originY = 0 := rfl
    have e2 : linuxWideState.coordOffsetY = 0 := rfl
    have e3 : linuxWideState.screenHeight = 1080 := rfl
    rw [e1, e2, e3]
    omega

/-- C5 witness: mapped x at normalized 1000/3839 is exactly 1000 ≥ 0. -/
theorem C5_nonneg_and_full_range_witness :
    ((0 : ℤ) ≤ 1000 ∧ (1000 : ℤ) ≤ 3839) ∧
    (linuxWideState.mapNormalizedToScreen ((1000 : ℚ) / 3839) 0).1 = 1000 ∧
    0 ≤ (linuxWideState.mapNormalizedToScreen ((1000 : ℚ) / 3839) 0).1 :=
  ⟨⟨by norm_num, by norm_num⟩,
   C5_nonneg_and_full_range.2.1 1000 (by norm_num) (by norm_num),
   (C5_nonneg_and_full_range.1 ((1000 : ℚ) / 3839) 0).1⟩

/-- C1 counterexample: in the Linux negative-origin state the code's own
offset normalization produces (via `map_normalized_to_screen(1., 0.)`) the
coordinate x = 3839, which is NOT within `origin_x ≤ x ≤ origin_x + width − 1`
(= [−1920, 1919]) as the claim states; the emitted range is shifted by the
stored coordinate offset. -/
theorem C1_bounds_counterexample :
    (linuxWideState.mapNormalizedToScreen 1 0).1 = 3839 ∧
    ¬ ((linuxWideState.mapNormalizedToScreen 1 0).1 ≤
        linuxWideState.originX + linuxWideState.screenWidth - 1) := by
  have e1 : linuxWideState.originX = -1920 := rfl
  have e2 : linuxWideState.coordOffsetX = 1920 := rfl
  have e3 : linuxWideState.screenWidth = 3840 := rfl
  have hx : min 1 (max 0 (1 : ℚ)) * ((linuxWideState.screenWidth : ℚ) - 1) =
      ((3839 : ℤ) : ℚ) := by
    rw [e3]
    norm_num
  have hmap : (linuxWideState.mapNormalizedToScreen 1 0).1 = 3839 := by
    unfold CursorController.mapNormalizedToScreen CursorController.clipToBounds
    dsimp only
    rw [hx, roundHalfEven_intCast, e1, e2, e3]
    norm_num
  refine ⟨hmap, ?_⟩
  rw [hmap, e1, e3]
  norm_num

/-- C1 (amended): every coordinate returned by `update_position` (absolute
or relative mode) and by `map_normalized_to_screen` lies within the stored
virtual-desktop bounds SHIFTED BY THE STORED COORDINATE OFFSETS:
origin + offset ≤ coord ≤ origin + offset + size − 1 on each axis —
assuming a positive-size geometry, that the refresh interval has not
elapsed, that the OS pointer position used to seed relative mode lies in
those bounds, and that any cached last absolute position does too. -/
theorem C1_emitted_coordinates_in_offset_bounds (c : CursorController)
    (env : CursorEnv) (lms : List Point3)
    (hw : 1 ≤ c.screenWidth) (hh : 1 ≤ c.screenHeight)
    (hfresh : env.now - c.lastDetectTs < c.refreshSecs)
    (hseed : c.inBounds (c.currentPointerOrCenter env))
    (habs : ∀ ax ay : ℚ, c.lastAbsX = some ax → c.lastAbsY = some ay →
       c.inBounds (truncQ ax, truncQ ay)) :
    (∀ nx ny : ℚ, c.inBounds (c.mapNormalizedToScreen nx ny)) ∧
    (∀ p c', c.updatePosition env lms = some (p, c') → c.inBounds p) := by
  refine ⟨fun nx ny => c.mapNormalizedToScreen_inBounds hw hh nx ny, ?_⟩
  intro p c' h
  unfold CursorController.updatePosition at h
  rw [CursorController.maybeRefresh_not_elapsed c env hfresh] at h
  cases hm : lms.get? 12 with
  | none => rw [hm] at h; exact absurd h (by simp)
  | some middle =>
    rw [hm] at h
    dsimp only at h
    split at h
    · -- absolute mode: the result is clipped
      rw [Option.some.injEq, Prod.mk.injEq] at h
      obtain ⟨hp, _⟩ := h
      rw [← hp]
      exact CursorController.clipToBounds_inBounds _ hw hh _ _
    · -- relative mode
      split at h
      all_goals try (rw [Option.some.injEq, Prod.mk.injEq] at h
                     obtain ⟨hp, _⟩ := h
                     rw [← hp]
                     exact hseed)
      -- previous normalized position known; branch on the two dead-zone
      -- snaps, then on the both-deltas-zero test
      split at h
      all_goals split at h
      all_goals split at h
      -- motion path: the result is clipped
      all_goals try (rw [Option.some.injEq, Prod.mk.injEq] at h
                     obtain ⟨hp, _⟩ := h
                     rw [← hp]
                     exact CursorController.clipToBounds_inBounds _ hw hh _ _)
      -- both deltas zero: cached position or pointer/center seed
      all_goals split at h
      all_goals rw [Option.some.injEq, Prod.mk.injEq] at h
      all_goals obtain ⟨hp, _⟩ := h
      all_goals rw [← hp]
      all_goals first
        | exact hseed
        | exact habs _ _ (by assumption) (by assumption)

/-- A point on the x-axis (y = z = 0). -/
def p3 (x : ℚ) : Point3 := ⟨x, 0, 0⟩

/-- A 21-landmark frame whose thumb (4), index (8), middle (12) and ring
(16) tips sit on the x-axis at the given positions; all other landmarks at
the origin. -/
def mkFrame (t i m r : ℚ) : List Point3 :=
  [p3 0, p3 0, p3 0, p3 0, p3 t, p3 0, p3 0, p3 0, p3 i, p3 0, p3 0, p3 0,
   p3 m, p3 0, p3 0, p3 0, p3 r, p3 0, p3 0, p3 0, p3 0]

/-- A quiescent environment: clock at 0, pointer at (5, 7), benign probe. -/
def envC1 : CursorEnv :=
  { now := 0, detected := ⟨0, 0, 1920, 1080, 0, 0⟩, pointer := some (5, 7),
    hypot := fun _ _ => 0, powf := fun _ _ => 0 }

/-- C1 witness: the amended bounds theorem applied to the Linux
negative-origin state with a concrete in-bounds pointer. -/
theorem C1_emitted_coordinates_witness :
    (1 ≤ linuxWideState.screenWidth ∧ 1 ≤ linuxWideState.screenHeight ∧
     envC1.now - linuxWideState.lastDetectTs < linuxWideState.refreshSecs ∧
     linuxWideState.inBounds (linuxWideState.currentPointerOrCenter envC1)) ∧
    linuxWideState.inBounds (linuxWideState.mapNormalizedToScreen (1/3) (2/3)) := by
  have h1 : (1 : ℤ) ≤ linuxWideState.screenWidth := by decide
  have h2 : (1 : ℤ) ≤ linuxWideState.screenHeight := by decide
  have h3 : envC1.now - linuxWideState.lastDetectTs < linuxWideState.refreshSecs := by
    norm_num [envC1, linuxWideState]
  have h4 : linuxWideState.inBounds (linuxWideState.currentPointerOrCenter envC1) := by
    decide
  have h5 : ∀ ax ay : ℚ, linuxWideState.lastAbsX = some ax →
      linuxWideState.lastAbsY = some ay →
      linuxWideState.inBounds (truncQ ax, truncQ ay) := by
    intro ax ay hx hy
    simp [linuxWideState] at hx
  exact ⟨⟨h1, h2, h3, h4⟩,
    (C1_emitted_coordinates_in_offset_bounds linuxWideState envC1 [] h1 h2 h3 h4 h5).1
      (1/3) (2/3)⟩

/-- C6: in relative mode, when both per-axis normalized deltas have
magnitude below the dead-zone threshold (and are snapped to zero),
`update_position` returns exactly the previous output position
(`int(last_abs_x), int(last_abs_y)`) and leaves the whole controller
state — in particular the stored last absolute position — unchanged. -/
theorem C6_deadzone_holds_previous_output (c : CursorController) (env : CursorEnv)
    (lms : List Point3) (middle : Point3) (lnx lny ax ay : ℚ)
    (hm : lms.get? 12 = some middle)
    (hrel : c.useRelative = true)
    (hfresh : env.now - c.lastDetectTs < c.refreshSecs)
    (hlnx : c.lastNormX = some lnx) (hlny : c.lastNormY = some lny)
    (hax : c.lastAbsX = some ax) (hay : c.lastAbsY = some ay)
    (hdx : |(1 - middle.x) - lnx| < c.deadz)
    (hdy : |middle.y - lny| < c.deadz) :
    c.updatePosition env lms = some ((truncQ ax, truncQ ay), c) := by
  unfold CursorController.updatePosition
  rw [CursorController.maybeRefresh_not_elapsed c env hfresh, hm]
  dsimp only
  rw [hrel]
  rw [if_neg (by simp : ¬ (true = false))]
  rw [hlnx, hlny]
  dsimp only
  rw [if_pos hdx, if_pos hdy]
  rw [if_pos (And.intro rfl rfl)]
  rw [hax, hay]

/-- A seeded relative-mode controller used as a concrete instance. -/
def crel : CursorController :=
  { linuxWideState with
    useRelative := true
    lastNormX := some (1/2)
    lastNormY := some 0
    lastAbsX := some 100
    lastAbsY := some 200
    lastTs := some 1 }

/-- C6 witness: a concrete frame whose deltas fall inside the dead zone
returns the previous output (100, 200) and leaves the state unchanged. -/
theorem C6_deadzone_witness :
    ((mkFrame 0 0 (1/2) 0).get? 12 = some (p3 (1/2)) ∧
     crel.useRelative = true ∧
     envC1.now - crel.lastDetectTs < crel.refreshSecs ∧
     |(1 - (p3 (1/2)).x) - (1/2)| < crel.deadz ∧
     |(p3 (1/2)).y - 0| < crel.deadz) ∧
    crel.updatePosition envC1 (mkFrame 0 0 (1/2) 0) =
      some ((truncQ 100, truncQ 200), crel) := by
  have hm : (mkFrame 0 0 (1/2) 0).get? 12 = some (p3 (1/2)) := rfl
  have hfresh : envC1.now - crel.lastDetectTs < crel.refreshSecs := by
    norm_num [crel, linuxWideState, envC1]
  have hdx : |(1 - (p3 (1/2)).x) - (1/2)| < crel.deadz := by
    norm_num [crel, linuxWideState, p3]
  have hdy : |(p3 (1/2)).y - 0| < crel.deadz := by
    norm_num [crel, linuxWideState, p3]
  exact ⟨⟨hm, rfl, hfresh, hdx, hdy⟩,
    C6_deadzone_holds_previous_output crel envC1 _ (p3 (1/2)) (1/2) 0 100 200
      hm rfl hfresh rfl rfl rfl rfl hdx hdy⟩

/-! ## Gesture-detector step lemmas -/

theorem abs_eval (q : ℚ) (h : 0 ≤ q) : |q| = q := abs_of_nonneg h

theorem abs_eval_neg (q : ℚ) (h : q ≤ 0) : |q| = -q := abs_of_nonpos h

theorem released_eq_dragging_iff : (DragState.RELEASED = DragState.DRAGGING) = False := by
  decide

theorem held_eq_dragging_iff : (DragState.HELD = DragState.DRAGGING) = False := by
  decide

namespace GestureDetector

theorem detect_eq_core (st : GestureDetector) (d : DistFn) (now : ℚ) (lms : List Point3)
    (tp ip mp rp : Point3) (h4 : lms.get? 4 = some tp) (h8 : lms.get? 8 = some ip)
    (h12 : lms.get? 12 = some mp) (h16 : lms.get? 16 = some rp) :
    st.detect d now lms = some (st.detectCore d now lms tp ip mp rp) := by
  unfold detect
  rw [h4, h8, h12, h16]

theorem isReady_fst (tms : String → ℚ) (now : ℚ) (g : String) (deb : ℚ) :
    ((isReady tms now g deb).1 = true) ↔ deb < now - tms g := by
  unfold isReady
  dsimp only
  split
  · rename_i h
    simpa using h
  · rename_i h
    simpa using h

theorem isReady_snd_other (tms : String → ℚ) (now : ℚ) (g : String) (deb : ℚ)
    (g' : String) (h : g' ≠ g) : (isReady tms now g deb).2 g' = tms g' := by
  unfold isReady
  dsimp only
  split
  · exact setTimer_other _ _ _ _ h
  · rfl

theorem isReady_true_timer (tms : String → ℚ) (now : ℚ) (g : String) (deb : ℚ)
    (h : (isReady tms now g deb).1 = true) : (isReady tms now g deb).2 g = now := by
  unfold isReady at h ⊢
  dsimp only at h ⊢
  split at h
  · rename_i hc
    rw [if_pos hc]
    exact setTimer_same _ _ _
  · exact Bool.noConfusion h

theorem isReady_false_snd (tms : String → ℚ) (now : ℚ) (g : String) (deb : ℚ)
    (h : (isReady tms now g deb).1 = false) : (isReady tms now g deb).2 = tms := by
  unfold isReady at h ⊢
  dsimp only at h ⊢
  split at h
  · exact Bool.noConfusion h
  · rename_i hc
    rw [if_neg hc]

/-- `clickScrollStep` never emits a drag-lifecycle event. -/
theorem clickScrollStep_no_drag (st : GestureDetector) (now : ℚ) (a : Bool)
    (mr im sy sx : ℚ) :
    ∀ (g : Gesture) (tm' : String → ℚ),
      st.clickScrollStep now a mr im sy sx = (some g, tm') → g.isDragEvent = false := by
  unfold clickScrollStep
  dsimp only
  repeat' split
  all_goals intro g tm' h
  all_goals injection h with h1 h2
  all_goals first
    | exact Option.noConfusion h1
    | (injection h1 with h3
       subst h3
       rfl)

/-- A scroll event is emitted only when the shared "SCROLL" debounce timer
has expired, and emitting it stamps that timer with the current time. -/
theorem clickScrollStep_scroll (st : GestureDetector) (now : ℚ) (a : Bool)
    (mr im sy sx : ℚ) :
    ∀ (g : Gesture) (tm' : String → ℚ),
      st.clickScrollStep now a mr im sy sx = (some g, tm') → g.isScroll = true →
      st.scrollDebounceMs < now - st.gestureTimers "SCROLL" ∧ tm' "SCROLL" = now := by
  unfold clickScrollStep
  dsimp only
  repeat' split
  all_goals intro g tm' h hs
  all_goals injection h with h1 h2
  all_goals first
    | exact Option.noConfusion h1
    | (injection h1 with h3
       subst h3
       first
         | (subst h2
            have hready :
                (isReady st.gestureTimers now "SCROLL" st.scrollDebounceMs).1 = true := by
              assumption
            exact ⟨(isReady_fst _ _ _ _).mp hready, isReady_true_timer _ _ _ _ hready⟩)
         | (subst h2
            have hfalse' :
                ¬ (isReady st.gestureTimers now "SCROLL" st.scrollDebounceMs).1 = true := by
              assumption
            have hfalse :
                (isReady st.gestureTimers now "SCROLL" st.scrollDebounceMs).1 = false := by
              simpa using hfalse'
            have hready :
                (isReady (isReady st.gestureTimers now "SCROLL" st.scrollDebounceMs).2
                  now "SCROLL" st.scrollDebounceMs).1 = true := by
              assumption
            rw [isReady_false_snd _ _ _ _ hfalse] at hready ⊢
            exact ⟨(isReady_fst _ _ _ _).mp hready, isReady_true_timer _ _ _ _ hready⟩)
         | simp [Gesture.isScroll] at hs)

/-- `dragStep` out of RELEASED on an engaged pinch: to HELD, start time
recorded, no event. -/
theorem dragStep_released_pinch (st : GestureDetector) (now q : ℚ)
    (h : st.dragState = .RELEASED) :
    st.dragStep now true q = ⟨none, .HELD, now, st.lastZoomDist, st.gestureTimers⟩ := by
  unfold dragStep
  rw [h]
  rfl

/-- `dragStep` out of RELEASED with no pinch: nothing happens. -/
theorem dragStep_released_nopinch (st : GestureDetector) (now q : ℚ)
    (h : st.dragState = .RELEASED) :
    st.dragStep now false q =
      ⟨none, .RELEASED, st.dragStartTime, st.lastZoomDist, st.gestureTimers⟩ := by
  unfold dragStep
  rw [h]
  rfl

/-- `dragStep` in HELD, still pinched, hold time not yet elapsed: stays
HELD with the same start time, no event. -/
theorem dragStep_held_stay (st : GestureDetector) (now q : ℚ)
    (h : st.dragState = .HELD) (hs : ¬ st.dragHoldMs < now - st.dragStartTime) :
    st.dragStep now true q =
      ⟨none, .HELD, st.dragStartTime, st.lastZoomDist, st.gestureTimers⟩ := by
  unfold dragStep
  rw [h]
  simp [hs]

/-- `dragStep` in HELD, still pinched, hold time elapsed: DRAG_START. -/
theorem dragStep_held_fire (st : GestureDetector) (now q : ℚ)
    (h : st.dragState = .HELD) (hs : st.dragHoldMs < now - st.dragStartTime) :
    st.dragStep now true q =
      ⟨some .DRAG_START, .DRAGGING, st.dragStartTime, st.lastZoomDist, st.gestureTimers⟩ := by
  unfold dragStep
  rw [h]
  simp [hs]

/-- `dragStep` in HELD on release: back to RELEASED (possibly emitting a
zoom event), zoom baseline set to the current distance. -/
theorem dragStep_held_release (st : GestureDetector) (now q : ℚ)
    (h : st.dragState = .HELD) :
    (st.dragStep now false q).dragState = .RELEASED ∧
    (st.dragStep now false q).dragStartTime = st.dragStartTime ∧
    (st.dragStep now false q).lastZoomDist = q := by
  unfold dragStep
  rw [h]
  exact ⟨rfl, rfl, rfl⟩

/-- `dragStep` in DRAGGING, still pinched: DRAG_MOVE. -/
theorem dragStep_dragging_move (st : GestureDetector) (now q : ℚ)
    (h : st.dragState = .DRAGGING) :
    st.dragStep now true q =
      ⟨some .DRAG_MOVE, .DRAGGING, st.dragStartTime, st.lastZoomDist, st.gestureTimers⟩ := by
  unfold dragStep
  rw [h]
  rfl

/-- `dragStep` in DRAGGING on release: DRAG_END, back to RELEASED. -/
theorem dragStep_dragging_end (st : GestureDetector) (now q : ℚ)
    (h : st.dragState = .DRAGGING) :
    st.dragStep now false q =
      ⟨some .DRAG_END, .RELEASED, st.dragStartTime, st.lastZoomDist, st.gestureTimers⟩ := by
  unfold dragStep
  rw [h]
  rfl

/-- `dragStep` never emits a scroll or click event. -/
theorem dragStep_no_scroll (st : GestureDetector) (now : ℚ) (b : Bool) (q : ℚ) :
    ∀ g : Gesture, (st.dragStep now b q).gesture = some g → g.isScroll = false := by
  unfold dragStep
  dsimp only
  repeat' split
  all_goals intro g h
  all_goals first
    | exact Option.noConfusion h
    | (injection h with h3
       subst h3
       rfl)

/-- `dragStep` touches at most the "ZOOM" entry of the timer map. -/
theorem dragStep_timers (st : GestureDetector) (now : ℚ) (b : Bool) (q : ℚ)
    (g' : String) (hne : g' ≠ "ZOOM") :
    (st.dragStep now b q).timers g' = st.gestureTimers g' := by
  unfold dragStep
  dsimp only
  repeat' split
  all_goals first
    | rfl
    | exact isReady_snd_other _ _ _ _ _ hne

end GestureDetector

namespace GestureDetector

/-- The drag state after a frame is exactly the one computed by the drag
block; the click/scroll block never touches it. -/
theorem detectCore_dragState (st : GestureDetector) (d : DistFn) (now : ℚ)
    (lms : List Point3) (tp ip mp rp : Point3) :
    (st.detectCore d now lms tp ip mp rp).2.dragState =
      (st.dragStep now (decide (d tp ip < st.pinchThresh)) (d tp ip)).dragState := by
  unfold detectCore
  dsimp only
  split <;> rfl

/-- Likewise for the drag start time. -/
theorem detectCore_dragStartTime (st : GestureDetector) (d : DistFn) (now : ℚ)
    (lms : List Point3) (tp ip mp rp : Point3) :
    (st.detectCore d now lms tp ip mp rp).2.dragStartTime =
      (st.dragStep now (decide (d tp ip < st.pinchThresh)) (d tp ip)).dragStartTime := by
  unfold detectCore
  dsimp only
  split <;> rfl

/-- A frame never changes the configured thresholds. -/
theorem detectCore_config (st : GestureDetector) (d : DistFn) (now : ℚ)
    (lms : List Point3) (tp ip mp rp : Point3) :
    (st.detectCore d now lms tp ip mp rp).2.pinchThresh = st.pinchThresh ∧
    (st.detectCore d now lms tp ip mp rp).2.threeFingerPinchThresh = st.threeFingerPinchThresh ∧
    (st.detectCore d now lms tp ip mp rp).2.clickDebounceMs = st.clickDebounceMs ∧
    (st.detectCore d now lms tp ip mp rp).2.dragHoldMs = st.dragHoldMs ∧
    (st.detectCore d now lms tp ip mp rp).2.zoomDebounceMs = st.zoomDebounceMs ∧
    (st.detectCore d now lms tp ip mp rp).2.scrollDebounceMs = st.scrollDebounceMs ∧
    (st.detectCore d now lms tp ip mp rp).2.zoomDeltaThresh = st.zoomDeltaThresh ∧
    (st.detectCore d now lms tp ip mp rp).2.scrollDeltaY = st.scrollDeltaY ∧
    (st.detectCore d now lms tp ip mp rp).2.scrollDeltaX = st.scrollDeltaX := by
  unfold detectCore
  dsimp only
  split <;> exact ⟨rfl, rfl, rfl, rfl, rfl, rfl, rfl, rfl, rfl⟩

/-- The gesture of a frame: the drag block's event, or — when the drag
block is quiet and not dragging — the click/scroll block's. -/
theorem detectCore_fst (st : GestureDetector) (d : DistFn) (now : ℚ)
    (lms : List Point3) (tp ip mp rp : Point3) :
    (st.detectCore d now lms tp ip mp rp).1 =
      (if (st.dragStep now (decide (d tp ip < st.pinchThresh)) (d tp ip)).dragState ≠
            DragState.DRAGGING ∧
          (st.dragStep now (decide (d tp ip < st.pinchThresh)) (d tp ip)).gesture = none then
        (({ st with
            dragState :=
              (st.dragStep now (decide (d tp ip < st.pinchThresh)) (d tp ip)).dragState,
            dragStartTime :=
              (st.dragStep now (decide (d tp ip < st.pinchThresh)) (d tp ip)).dragStartTime,
            lastZoomDist :=
              (st.dragStep now (decide (d tp ip < st.pinchThresh)) (d tp ip)).lastZoomDist,
            gestureTimers :=
              (st.dragStep now (decide (d tp ip < st.pinchThresh)) (d tp ip)).timers }
          : GestureDetector).clickScrollStep now
            (decide (d ip mp < st.threeFingerPinchThresh) &&
             decide (d mp rp < st.threeFingerPinchThresh))
            (d mp rp) (d ip mp) ((ip.y + mp.y) / 2) ((ip.x + mp.x) / 2)).1
      else (st.dragStep now (decide (d tp ip < st.pinchThresh)) (d tp ip)).gesture) := by
  unfold detectCore
  dsimp only
  split <;> rfl

/-- The timer map after a frame, in the same two cases. -/
theorem detectCore_timers (st : GestureDetector) (d : DistFn) (now : ℚ)
    (lms : List Point3) (tp ip mp rp : Point3) :
    (st.detectCore d now lms tp ip mp rp).2.gestureTimers =
      (if (st.dragStep now (decide (d tp ip < st.pinchThresh)) (d tp ip)).dragState ≠
            DragState.DRAGGING ∧
          (st.dragStep now (decide (d tp ip < st.pinchThresh)) (d tp ip)).gesture = none then
        (({ st with
            dragState :=
              (st.dragStep now (decide (d tp ip < st.pinchThresh)) (d tp ip)).dragState,
            dragStartTime :=
              (st.dragStep now (decide (d tp ip < st.pinchThresh)) (d tp ip)).dragStartTime,
            lastZoomDist :=
              (st.dragStep now (decide (d tp ip < st.pinchThresh)) (d tp ip)).lastZoomDist,
            gestureTimers :=
              (st.dragStep now (decide (d tp ip < st.pinchThresh)) (d tp ip)).timers }
          : GestureDetector).clickScrollStep now
            (decide (d ip mp < st.threeFingerPinchThresh) &&
             decide (d mp rp < st.threeFingerPinchThresh))
            (d mp rp) (d ip mp) ((ip.y + mp.y) / 2) ((ip.x + mp.x) / 2)).2
      else (st.dragStep now (decide (d tp ip < st.pinchThresh)) (d tp ip)).timers) := by
  unfold detectCore
  dsimp only
  split <;> split <;> rfl

end GestureDetector

/-- C9: all four scroll events share the single "SCROLL" debounce timer:
a frame can emit a scroll event (in any direction) only when more than
`scroll_debounce_ms` have elapsed since the shared timer was last stamped,
and emitting one stamps that shared timer with the current time — so a
vertical scroll suppresses horizontal scrolls for the whole window and
vice versa. -/
theorem C9_shared_scroll_debounce (st : GestureDetector) (d : DistFn) (now : ℚ)
    (lms : List Point3) (tp ip mp rp : Point3)
    (h4 : lms.get? 4 = some tp) (h8 : lms.get? 8 = some ip)
    (h12 : lms.get? 12 = some mp) (h16 : lms.get? 16 = some rp) :
    ∀ (g : Option Gesture) (st' : GestureDetector),
      st.detect d now lms = some (g, st') →
      ∀ gs : Gesture, g = some gs → gs.isScroll = true →
        st.scrollDebounceMs < now - st.gestureTimers "SCROLL" ∧
        st'.gestureTimers "SCROLL" = now := by
  intro g st' h gs hg hscroll
  subst hg
  rw [GestureDetector.detect_eq_core st d now lms tp ip mp rp h4 h8 h12 h16,
      Option.some.injEq] at h
  have hfst : (st.detectCore d now lms tp ip mp rp).1 = some gs := by
    rw [h]
  have hsnd : (st.detectCore d now lms tp ip mp rp).2 = st' := by
    rw [h]
  rw [GestureDetector.detectCore_fst] at hfst
  by_cases hc : (st.dragStep now (decide (d tp ip < st.pinchThresh)) (d tp ip)).dragState ≠
      DragState.DRAGGING ∧
      (st.dragStep now (decide (d tp ip < st.pinchThresh)) (d tp ip)).gesture = none
  · rw [if_pos hc] at hfst
    have hscr := GestureDetector.clickScrollStep_scroll _ now _ _ _ _ _ gs _
      (by rw [← hfst]) hscroll
    constructor
    · have hzoom : (st.dragStep now (decide (d tp ip < st.pinchThresh)) (d tp ip)).timers
          "SCROLL" = st.gestureTimers "SCROLL" :=
        GestureDetector.dragStep_timers st now _ _ "SCROLL" (by decide)
      have h1 : st.scrollDebounceMs <
          now - (st.dragStep now (decide (d tp ip < st.pinchThresh)) (d tp ip)).timers
            "SCROLL" := hscr.1
      rw [hzoom] at h1
      exact h1
    · rw [← hsnd, GestureDetector.detectCore_timers, if_pos hc]
      exact hscr.2
  · rw [if_neg hc] at hfst
    have hns := GestureDetector.dragStep_no_scroll st now _ _ gs hfst
    rw [hns] at hscroll
    exact Bool.noConfusion hscroll

/-- A detector that has already seen one open-hand frame, whose previous
two-finger average y-position was 1/2 (so a frame with fingertips on the
x-axis shows a large downward-to-upward displacement). -/
def stScroll : GestureDetector :=
  { GestureDetector.init with
    lastLandmarks := some (mkFrame 0 (1/2) (6/10) (9/10))
    lastScrollY := 1/2 }

/-- An open-hand frame: no pair of monitored tips within pinch range. -/
def fS : List Point3 := mkFrame 0 (1/2) (6/10) (9/10)

/-- C9 witness: the open-hand frame at t = 1000 ms emits SCROLL_UP, the
shared debounce window 1000 − 0 > 100 held, and the shared timer is
stamped with 1000. -/
theorem C9_shared_scroll_debounce_witness :
    (fS.get? 4 = some (p3 0) ∧ fS.get? 8 = some (p3 (1/2)) ∧
     fS.get? 12 = some (p3 (6/10)) ∧ fS.get? 16 = some (p3 (9/10)) ∧
     (stScroll.detectCore distX 1000 fS (p3 0) (p3 (1/2)) (p3 (6/10)) (p3 (9/10))).1 =
       some Gesture.SCROLL_UP ∧
     Gesture.SCROLL_UP.isScroll = true) ∧
    (stScroll.scrollDebounceMs < 1000 - stScroll.gestureTimers "SCROLL" ∧
     (stScroll.detectCore distX 1000 fS (p3 0) (p3 (1/2)) (p3 (6/10)) (p3 (9/10))).2.gestureTimers
       "SCROLL" = 1000) := by
  have hcore : (stScroll.detectCore distX 1000 fS (p3 0) (p3 (1/2)) (p3 (6/10))
      (p3 (9/10))).1 = some Gesture.SCROLL_UP := by
    norm_num [GestureDetector.detectCore, GestureDetector.dragStep,
      GestureDetector.clickScrollStep, GestureDetector.isReady, GestureDetector.setTimer,
      GestureDetector.init, stScroll, fS, mkFrame, p3, distX, abs_eval, abs_eval_neg,
      released_eq_dragging_iff, held_eq_dragging_iff]
  have hdet : stScroll.detect distX 1000 fS =
      some (some Gesture.SCROLL_UP,
        (stScroll.detectCore distX 1000 fS (p3 0) (p3 (1/2)) (p3 (6/10)) (p3 (9/10))).2) := by
    rw [GestureDetector.detect_eq_core stScroll distX 1000 fS (p3 0) (p3 (1/2)) (p3 (6/10))
      (p3 (9/10)) rfl rfl rfl rfl, ← hcore]
  refine ⟨⟨rfl, rfl, rfl, rfl, hcore, rfl⟩, ?_⟩
  exact C9_shared_scroll_debounce stScroll distX 1000 fS (p3 0) (p3 (1/2)) (p3 (6/10))
    (p3 (9/10)) rfl rfl rfl rfl (some Gesture.SCROLL_UP) _ hdet Gesture.SCROLL_UP rfl rfl

/-- Thumb–index 0.019 m apart (engaged at the single 0.02 m threshold);
other pairs far apart. -/
def fP : List Point3 := mkFrame 0 (19/1000) (1/2) (9/10)

/-- Thumb–index 0.021 m apart (just above the single threshold). -/
def fR : List Point3 := mkFrame 0 (21/1000) (1/2) (9/10)

/-- C2 counterexample: the code has no hysteresis dead-band.  Relative to
any open-hand baseline of 0.04 m, the distances 0.019 m and 0.021 m are
the ratios 19/40 = 0.475 and 21/40 = 0.525 — both strictly between
inRatio = 0.35 and outRatio = 0.55, so per the claim the pinched flag must
not change.  Yet the detector's stored pinch state (the drag state)
engages on the first frame and releases on the second: it flips inside
the claimed dead band, because pinch is re-evaluated each frame against
the single threshold `pinch_thresh`. -/
theorem C2_hysteresis_counterexample :
    (GestureDetector.run GestureDetector.init distX [(1000, fP)]).map
        (fun x => x.2.dragState) = some DragState.HELD ∧
    (GestureDetector.run GestureDetector.init distX [(1000, fP), (1030, fR)]).map
        (fun x => x.2.dragState) = some DragState.RELEASED ∧
    ((19 : ℚ)/1000) / (4/100) = 19/40 ∧ ((21 : ℚ)/1000) / (4/100) = 21/40 ∧
    ((35 : ℚ)/100 < 19/40 ∧ (19 : ℚ)/40 < 55/100) ∧
    ((35 : ℚ)/100 < 21/40 ∧ (21 : ℚ)/40 < 55/100) := by
  refine ⟨?_, ?_, by norm_num, by norm_num, by norm_num, by norm_num⟩ <;>
    norm_num [GestureDetector.run, GestureDetector.detect, GestureDetector.detectCore,
      GestureDetector.dragStep, GestureDetector.clickScrollStep, GestureDetector.isReady,
      GestureDetector.setTimer, GestureDetector.init, fP, fR, mkFrame, p3, distX,
      List.get?, abs_eval, abs_eval_neg, released_eq_dragging_iff, held_eq_dragging_iff]

/-- C2 (amended): the detector keeps no per-pair pinched flag with
hysteresis; the only stored pinch state is the thumb–index drag state, and
it is governed by the single threshold `pinch_thresh` re-evaluated every
frame — out of RELEASED the state engages exactly when the raw distance is
below the threshold, and out of HELD (before the hold time elapses) it
releases exactly when the raw distance is at or above the same threshold,
with no dead band. -/
theorem C2_amended_single_threshold (st : GestureDetector) (d : DistFn) (now : ℚ)
    (lms : List Point3) (tp ip mp rp : Point3)
    (h4 : lms.get? 4 = some tp) (h8 : lms.get? 8 = some ip)
    (h12 : lms.get? 12 = some mp) (h16 : lms.get? 16 = some rp) :
    ∀ (g : Option Gesture) (st' : GestureDetector),
      st.detect d now lms = some (g, st') →
      (st.dragState = .RELEASED → (st'.dragState = .HELD ↔ d tp ip < st.pinchThresh)) ∧
      (st.dragState = .HELD → ¬ st.dragHoldMs < now - st.dragStartTime →
        (st'.dragState = .RELEASED ↔ ¬ d tp ip < st.pinchThresh)) := by
  intro g st' h
  rw [GestureDetector.detect_eq_core st d now lms tp ip mp rp h4 h8 h12 h16,
      Option.some.injEq] at h
  have hds : st'.dragState =
      (st.dragStep now (decide (d tp ip < st.pinchThresh)) (d tp ip)).dragState := by
    rw [show st' = (st.detectCore d now lms tp ip mp rp).2 from by rw [h]]
    exact GestureDetector.detectCore_dragState st d now lms tp ip mp rp
  constructor
  · intro hrel
    by_cases hp : d tp ip < st.pinchThresh
    · rw [hds, decide_eq_true hp, GestureDetector.dragStep_released_pinch st now _ hrel]
      simpa using hp
    · rw [hds, decide_eq_false hp, GestureDetector.dragStep_released_nopinch st now _ hrel]
      simp [hp]
  · intro hheld hstay
    by_cases hp : d tp ip < st.pinchThresh
    · rw [hds, decide_eq_true hp, GestureDetector.dragStep_held_stay st now _ hheld hstay]
      simp [hp]
    · rw [hds, decide_eq_false hp,
        (GestureDetector.dragStep_held_release st now _ hheld).1]
      simp [hp]

/-- C2 witness: the amended single-threshold law applied to a fresh
detector and the 0.019 m pinch frame — the state engages because
0.019 < 0.02. -/
theorem C2_amended_single_threshold_witness :
    (fP.get? 4 = some (p3 0) ∧ fP.get? 8 = some (p3 (19/1000)) ∧
     GestureDetector.init.dragState = DragState.RELEASED) ∧
    (((GestureDetector.init.detectCore distX 1000 fP (p3 0) (p3 (19/1000)) (p3 (1/2))
        (p3 (9/10))).2.dragState = DragState.HELD ↔
      distX (p3 0) (p3 (19/1000)) < GestureDetector.init.pinchThresh) ∧
     distX (p3 0) (p3 (19/1000)) < GestureDetector.init.pinchThresh) := by
  have hdet : GestureDetector.init.detect distX 1000 fP =
      some ((GestureDetector.init.detectCore distX 1000 fP (p3 0) (p3 (19/1000)) (p3 (1/2))
          (p3 (9/10))).1,
        (GestureDetector.init.detectCore distX 1000 fP (p3 0) (p3 (19/1000)) (p3 (1/2))
          (p3 (9/10))).2) :=
    GestureDetector.detect_eq_core GestureDetector.init distX 1000 fP _ _ _ _ rfl rfl rfl rfl
  have hlt : distX (p3 0) (p3 (19/1000)) < GestureDetector.init.pinchThresh := by
    norm_num [distX, p3, GestureDetector.init, abs_eval, abs_eval_neg]
  exact ⟨⟨rfl, rfl, rfl⟩,
    (C2_amended_single_threshold GestureDetector.init distX 1000 fP _ _ _ _
      rfl rfl rfl rfl _ _ hdet).1 rfl, hlt⟩

/-- Index–middle 0.01 m apart (a left-click pinch); thumb and ring far. -/
def fLC : List Point3 := mkFrame (1/2) (1/10) (11/100) (9/10)

/-- C3 counterexample: the index–middle pinch stays engaged across both
frames (no release in between), yet LEFT_CLICK fires on BOTH frames 201 ms
apart — the pair is not "spent" until release and re-pinch, it re-fires
every `click_debounce_ms` while held; and the first click fires on the
very first engaged frame, with no minimum press duration. -/
theorem C3_click_latch_counterexample :
    (GestureDetector.run GestureDetector.init distX
       [(1000, fLC), (1201, fLC)]).map Prod.fst =
      some [some Gesture.LEFT_CLICK, some Gesture.LEFT_CLICK] := by
  norm_num [GestureDetector.run, GestureDetector.detect, GestureDetector.detectCore,
    GestureDetector.dragStep, GestureDetector.clickScrollStep, GestureDetector.isReady,
    GestureDetector.setTimer, GestureDetector.init, fLC, mkFrame, p3, distX,
    List.get?, abs_eval, abs_eval_neg, released_eq_dragging_iff, held_eq_dragging_iff]

/-- C3 (amended): on a frame whose only engaged pair is index–middle (and
with the drag machine at rest), LEFT_CLICK fires exactly when more than
`click_debounce_ms` have elapsed since that pair's timer was last stamped
— there is no minimum press duration and no once-per-engagement latch —
and firing stamps the timer with the current time. -/
theorem C3_amended_debounce_only (st : GestureDetector) (d : DistFn) (now : ℚ)
    (lms : List Point3) (tp ip mp rp : Point3)
    (h4 : lms.get? 4 = some tp) (h8 : lms.get? 8 = some ip)
    (h12 : lms.get? 12 = some mp) (h16 : lms.get? 16 = some rp)
    (hrel : st.dragState = .RELEASED)
    (hnp : ¬ d tp ip < st.pinchThresh)
    (hmr3 : ¬ d mp rp < st.threeFingerPinchThresh)
    (hmr : ¬ d mp rp < st.pinchThresh)
    (him : d ip mp < st.pinchThresh) :
    ∀ (g : Option Gesture) (st' : GestureDetector),
      st.detect d now lms = some (g, st') →
      (g = some Gesture.LEFT_CLICK ↔
        st.clickDebounceMs < now - st.gestureTimers "LEFT_CLICK") ∧
      st'.gestureTimers "LEFT_CLICK" =
        (if st.clickDebounceMs < now - st.gestureTimers "LEFT_CLICK" then now
         else st.gestureTimers "LEFT_CLICK") := by
  intro g st' h
  rw [GestureDetector.detect_eq_core st d now lms tp ip mp rp h4 h8 h12 h16,
      Option.some.injEq] at h
  have hfst : (st.detectCore d now lms tp ip mp rp).1 = g := by rw [h]
  have htm : (st.detectCore d now lms tp ip mp rp).2.gestureTimers = st'.gestureTimers := by
    rw [h]
  rw [GestureDetector.detectCore_fst] at hfst
  rw [GestureDetector.detectCore_timers] at htm
  rw [decide_eq_false hnp, GestureDetector.dragStep_released_nopinch st now _ hrel]
    at hfst htm
  rw [if_pos (by exact ⟨by simp, rfl⟩)] at hfst htm
  by_cases hready : st.clickDebounceMs < now - st.gestureTimers "LEFT_CLICK"
  · simp only [GestureDetector.clickScrollStep, GestureDetector.isReady,
      decide_eq_false hmr3, Bool.and_false, Bool.false_eq_true, if_false,
      hmr, him, if_neg, if_true, hready, if_pos] at hfst htm
    constructor
    · rw [← hfst]
      simp [hready]
    · rw [← htm, if_pos hready]
      exact GestureDetector.setTimer_same _ _ _
  · simp only [GestureDetector.clickScrollStep, GestureDetector.isReady,
      decide_eq_false hmr3, Bool.and_false, Bool.false_eq_true, if_false,
      hmr, him, if_neg, if_true, hready, if_pos] at hfst htm
    constructor
    · rw [← hfst]
      simp [hready]
    · rw [← htm, if_neg hready]

/-- C3 witness: the debounce-only law applied to a fresh detector and the
left-click frame at t = 1000 ms. -/
theorem C3_amended_debounce_only_witness :
    (GestureDetector.init.dragState = DragState.RELEASED ∧
     ¬ distX (p3 (1/2)) (p3 (1/10)) < GestureDetector.init.pinchThresh ∧
     ¬ distX (p3 (11/100)) (p3 (9/10)) < GestureDetector.init.threeFingerPinchThresh ∧
     ¬ distX (p3 (11/100)) (p3 (9/10)) < GestureDetector.init.pinchThresh ∧
     distX (p3 (1/10)) (p3 (11/100)) < GestureDetector.init.pinchThresh) ∧
    (((GestureDetector.init.detectCore distX 1000 fLC (p3 (1/2)) (p3 (1/10)) (p3 (11/100))
         (p3 (9/10))).1 = some Gesture.LEFT_CLICK ↔
       GestureDetector.init.clickDebounceMs <
         1000 - GestureDetector.init.gestureTimers "LEFT_CLICK") ∧
     (GestureDetector.init.detectCore distX 1000 fLC (p3 (1/2)) (p3 (1/10)) (p3 (11/100))
         (p3 (9/10))).2.gestureTimers "LEFT_CLICK" =
       (if GestureDetector.init.clickDebounceMs <
           1000 - GestureDetector.init.gestureTimers "LEFT_CLICK" then 1000
        else GestureDetector.init.gestureTimers "LEFT_CLICK")) := by
  have h1 : ¬ distX (p3 (1/2)) (p3 (1/10)) < GestureDetector.init.pinchThresh := by
    norm_num [distX, p3, GestureDetector.init, abs_eval, abs_eval_neg]
  have h2 : ¬ distX (p3 (11/100)) (p3 (9/10)) <
      GestureDetector.init.threeFingerPinchThresh := by
    norm_num [distX, p3, GestureDetector.init, abs_eval, abs_eval_neg]
  have h3 : ¬ distX (p3 (11/100)) (p3 (9/10)) < GestureDetector.init.pinchThresh := by
    norm_num [distX, p3, GestureDetector.init, abs_eval, abs_eval_neg]
  have h5 : distX (p3 (1/10)) (p3 (11/100)) < GestureDetector.init.pinchThresh := by
    norm_num [distX, p3, GestureDetector.init, abs_eval, abs_eval_neg]
  have hdet : GestureDetector.init.detect distX 1000 fLC =
      some ((GestureDetector.init.detectCore distX 1000 fLC (p3 (1/2)) (p3 (1/10))
          (p3 (11/100)) (p3 (9/10))).1,
        (GestureDetector.init.detectCore distX 1000 fLC (p3 (1/2)) (p3 (1/10))
          (p3 (11/100)) (p3 (9/10))).2) :=
    GestureDetector.detect_eq_core GestureDetector.init distX 1000 fLC _ _ _ _
      rfl rfl rfl rfl
  exact ⟨⟨rfl, h1, h2, h3, h5⟩,
    C3_amended_debounce_only GestureDetector.init distX 1000 fLC _ _ _ _ rfl rfl rfl rfl
      rfl h1 h2 h3 h5 _ _ hdet⟩

/-- C8: a landmark set with fewer than 21 joints is NOT treated as
"no hand".  A 10-point list makes `detect` fail on the `landmarks[12]` /
`landmarks[16]` indexing (an IndexError, modelled by `none`) instead of
returning no event with state preserved; and a 17-point list (still fewer
than 21) is processed as a full hand — here it emits LEFT_CLICK and
mutates state.  The guard the spec requires exists in the drawing helpers
(`draw_hand_connections` checks `len(landmarks) < 21`) but not in the
detector. -/
theorem C8_short_landmarks_not_ignored :
    (List.replicate 10 (p3 0)).length < 21 ∧
    GestureDetector.init.detect distX 1000 (List.replicate 10 (p3 0)) = none ∧
    (fLC.take 17).length < 21 ∧
    (GestureDetector.init.detect distX 1000 (fLC.take 17)).map Prod.fst =
      some (some Gesture.LEFT_CLICK) := by
  refine ⟨by decide, rfl, by decide, ?_⟩
  norm_num [GestureDetector.detect, GestureDetector.detectCore,
    GestureDetector.dragStep, GestureDetector.clickScrollStep, GestureDetector.isReady,
    GestureDetector.setTimer, GestureDetector.init, fLC, mkFrame, p3, distX,
    List.get?, List.take, abs_eval, abs_eval_neg, released_eq_dragging_iff,
    held_eq_dragging_iff]

namespace GestureDetector

/-- Iterated detector states over an indexed family of timed frames, the
four fingertips of each frame given explicitly. -/
def stepsD (d : DistFn) (tm : ℕ → ℚ) (fr : ℕ → List Point3)
    (tp ip mp rp : ℕ → Point3) (st0 : GestureDetector) : ℕ → GestureDetector
  | 0 => st0
  | k + 1 =>
      ((stepsD d tm fr tp ip mp rp st0 k).detectCore d (tm k) (fr k)
        (tp k) (ip k) (mp k) (rp k)).2

/-- The gesture emitted at frame `k` of the run. -/
def outD (d : DistFn) (tm : ℕ → ℚ) (fr : ℕ → List Point3)
    (tp ip mp rp : ℕ → Point3) (st0 : GestureDetector) (k : ℕ) : Option Gesture :=
  ((stepsD d tm fr tp ip mp rp st0 k).detectCore d (tm k) (fr k)
    (tp k) (ip k) (mp k) (rp k)).1

end GestureDetector

/-- C4: drag lifecycle.  Starting from RELEASED, with the thumb–index
pinch engaged on frames 0 … j+K, the hold threshold not yet elapsed on
frames 1 … j−1, elapsed at frame j, and the pinch released at frame
j+K+1: `detect` emits no drag event before frame j, exactly one
DRAG_START at frame j, DRAG_MOVE on each of the K still-pinched frames
after it, and exactly one DRAG_END on the release frame. -/
theorem C4_drag_lifecycle (d : DistFn) (tm : ℕ → ℚ) (fr : ℕ → List Point3)
    (tp ip mp rp : ℕ → Point3) (st0 : GestureDetector)
    (hget : ∀ k, (fr k).get? 4 = some (tp k) ∧ (fr k).get? 8 = some (ip k) ∧
      (fr k).get? 12 = some (mp k) ∧ (fr k).get? 16 = some (rp k))
    (hrel0 : st0.dragState = .RELEASED)
    (j K : ℕ) (hj : 1 ≤ j)
    (hpinch : ∀ k, k ≤ j + K → d (tp k) (ip k) < st0.pinchThresh)
    (hrelease : ¬ d (tp (j + K + 1)) (ip (j + K + 1)) < st0.pinchThresh)
    (hstay : ∀ k, 1 ≤ k → k < j → ¬ st0.dragHoldMs < tm k - tm 0)
    (hfire : st0.dragHoldMs < tm j - tm 0) :
    (∀ k, (GestureDetector.stepsD d tm fr tp ip mp rp st0 k).detect d (tm k) (fr k) =
       some (GestureDetector.outD d tm fr tp ip mp rp st0 k,
             GestureDetector.stepsD d tm fr tp ip mp rp st0 (k + 1))) ∧
    (∀ k, k < j → ∀ gs, GestureDetector.outD d tm fr tp ip mp rp st0 k = some gs →
       gs.isDragEvent = false) ∧
    GestureDetector.outD d tm fr tp ip mp rp st0 j = some .DRAG_START ∧
    (∀ k, j + 1 ≤ k → k ≤ j + K →
       GestureDetector.outD d tm fr tp ip mp rp st0 k = some .DRAG_MOVE) ∧
    GestureDetector.outD d tm fr tp ip mp rp st0 (j + K + 1) = some .DRAG_END := by
  -- configuration is preserved along the run
  have hconf : ∀ k, (GestureDetector.stepsD d tm fr tp ip mp rp st0 k).pinchThresh =
      st0.pinchThresh ∧
      (GestureDetector.stepsD d tm fr tp ip mp rp st0 k).dragHoldMs = st0.dragHoldMs := by
    intro k
    induction k with
    | zero => exact ⟨rfl, rfl⟩
    | succ n ihn =>
        have hc := GestureDetector.detectCore_config
          (GestureDetector.stepsD d tm fr tp ip mp rp st0 n) d (tm n) (fr n)
          (tp n) (ip n) (mp n) (rp n)
        exact ⟨hc.1.trans ihn.1, hc.2.2.2.1.trans ihn.2⟩
  have hdecP : ∀ k, k ≤ j + K →
      decide (d (tp k) (ip k) <
        (GestureDetector.stepsD d tm fr tp ip mp rp st0 k).pinchThresh) = true := by
    intro k hk
    rw [(hconf k).1]
    exact decide_eq_true (hpinch k hk)
  -- frames 1 … j stay HELD with start time tm 0
  have hheldInv : ∀ k, 1 ≤ k → k ≤ j →
      (GestureDetector.stepsD d tm fr tp ip mp rp st0 k).dragState = .HELD ∧
      (GestureDetector.stepsD d tm fr tp ip mp rp st0 k).dragStartTime = tm 0 := by
    intro k
    induction k with
    | zero => intro h1 _; exact absurd h1 (by omega)
    | succ n ihn =>
        intro _ hkj
        by_cases hn : n = 0
        · subst hn
          constructor
          · rw [show (GestureDetector.stepsD d tm fr tp ip mp rp st0 1).dragState =
                (st0.dragStep (tm 0)
                  (decide (d (tp 0) (ip 0) < st0.pinchThresh)) (d (tp 0) (ip 0))).dragState
                from GestureDetector.detectCore_dragState st0 d (tm 0) (fr 0) _ _ _ _,
              decide_eq_true (hpinch 0 (by omega)),
              GestureDetector.dragStep_released_pinch st0 (tm 0) _ hrel0]
          · rw [show (GestureDetector.stepsD d tm fr tp ip mp rp st0 1).dragStartTime =
                (st0.dragStep (tm 0)
                  (decide (d (tp 0) (ip 0) < st0.pinchThresh)) (d (tp 0) (ip 0))).dragStartTime
                from GestureDetector.detectCore_dragStartTime st0 d (tm 0) (fr 0) _ _ _ _,
              decide_eq_true (hpinch 0 (by omega)),
              GestureDetector.dragStep_released_pinch st0 (tm 0) _ hrel0]
        · have prev := ihn (by omega) (by omega)
          have hstayN : ¬ (GestureDetector.stepsD d tm fr tp ip mp rp st0 n).dragHoldMs <
              tm n - (GestureDetector.stepsD d tm fr tp ip mp rp st0 n).dragStartTime := by
            rw [(hconf n).2, prev.2]
            exact hstay n (by omega) (by omega)
          constructor
          · rw [show (GestureDetector.stepsD d tm fr tp ip mp rp st0 (n + 1)).dragState =
                ((GestureDetector.stepsD d tm fr tp ip mp rp st0 n).dragStep (tm n)
                  (decide (d (tp n) (ip n) <
                    (GestureDetector.stepsD d tm fr tp ip mp rp st0 n).pinchThresh))
                  (d (tp n) (ip n))).dragState
                from GestureDetector.detectCore_dragState _ d (tm n) (fr n) _ _ _ _,
              hdecP n (by omega),
              GestureDetector.dragStep_held_stay _ (tm n) _ prev.1 hstayN]
          · rw [show (GestureDetector.stepsD d tm fr tp ip mp rp st0 (n + 1)).dragStartTime =
                ((GestureDetector.stepsD d tm fr tp ip mp rp st0 n).dragStep (tm n)
                  (decide (d (tp n) (ip n) <
                    (GestureDetector.stepsD d tm fr tp ip mp rp st0 n).pinchThresh))
                  (d (tp n) (ip n))).dragStartTime
                from GestureDetector.detectCore_dragStartTime _ d (tm n) (fr n) _ _ _ _,
              hdecP n (by omega),
              GestureDetector.dragStep_held_stay _ (tm n) _ prev.1 hstayN]
            exact prev.2
  -- frames j+1 … j+K+1 are DRAGGING
  have hfireJ : (GestureDetector.stepsD d tm fr tp ip mp rp st0 j).dragHoldMs <
      tm j - (GestureDetector.stepsD d tm fr tp ip mp rp st0 j).dragStartTime := by
    rw [(hconf j).2, (hheldInv j hj le_rfl).2]
    exact hfire
  have hdragInv : ∀ k, j + 1 ≤ k → k ≤ j + K + 1 →
      (GestureDetector.stepsD d tm fr tp ip mp rp st0 k).dragState = .DRAGGING := by
    intro k
    induction k with
    | zero => intro h1 _; exact absurd h1 (by omega)
    | succ n ihn =>
        intro h1 h2
        by_cases hn : n = j
        · subst hn
          rw [show (GestureDetector.stepsD d tm fr tp ip mp rp st0 (n + 1)).dragState =
              ((GestureDetector.stepsD d tm fr tp ip mp rp st0 n).dragStep (tm n)
                (decide (d (tp n) (ip n) <
                  (GestureDetector.stepsD d tm fr tp ip mp rp st0 n).pinchThresh))
                (d (tp n) (ip n))).dragState
              from GestureDetector.detectCore_dragState _ d (tm n) (fr n) _ _ _ _,
            hdecP n (by omega),
            GestureDetector.dragStep_held_fire _ (tm n) _ (hheldInv n hj le_rfl).1 hfireJ]
        · have prev := ihn (by omega) (by omega)
          rw [show (GestureDetector.stepsD d tm fr tp ip mp rp st0 (n + 1)).dragState =
              ((GestureDetector.stepsD d tm fr tp ip mp rp st0 n).dragStep (tm n)
                (decide (d (tp n) (ip n) <
                  (GestureDetector.stepsD d tm fr tp ip mp rp st0 n).pinchThresh))
                (d (tp n) (ip n))).dragState
              from GestureDetector.detectCore_dragState _ d (tm n) (fr n) _ _ _ _,
            hdecP n (by omega),
            GestureDetector.dragStep_dragging_move _ (tm n) _ prev]
  refine ⟨?_, ?_, ?_, ?_, ?_⟩
  · -- detect agrees with the run at every frame
    intro k
    exact GestureDetector.detect_eq_core _ d (tm k) (fr k) _ _ _ _
      (hget k).1 (hget k).2.1 (hget k).2.2.1 (hget k).2.2.2
  · -- no drag event before frame j
    intro k hkj gs hgs
    unfold GestureDetector.outD at hgs
    rw [GestureDetector.detectCore_fst] at hgs
    by_cases hk0 : k = 0
    · subst hk0
      rw [hdecP 0 (by omega),
        GestureDetector.dragStep_released_pinch
          (GestureDetector.stepsD d tm fr tp ip mp rp st0 0) (tm 0) _
          (show (GestureDetector.stepsD d tm fr tp ip mp rp st0 0).dragState = .RELEASED
            from hrel0)] at hgs
      rw [if_pos ⟨by simp, rfl⟩] at hgs
      exact GestureDetector.clickScrollStep_no_drag _ (tm 0) _ _ _ _ _ gs _ (by rw [← hgs])
    · have prev := hheldInv k (by omega) (by omega)
      have hstayK : ¬ (GestureDetector.stepsD d tm fr tp ip mp rp st0 k).dragHoldMs <
          tm k - (GestureDetector.stepsD d tm fr tp ip mp rp st0 k).dragStartTime := by
        rw [(hconf k).2, prev.2]
        exact hstay k (by omega) hkj
      rw [hdecP k (by omega),
        GestureDetector.dragStep_held_stay _ (tm k) _ prev.1 hstayK] at hgs
      rw [if_pos ⟨by simp, rfl⟩] at hgs
      exact GestureDetector.clickScrollStep_no_drag _ (tm k) _ _ _ _ _ gs _ (by rw [← hgs])
  · -- DRAG_START exactly at frame j
    unfold GestureDetector.outD
    rw [GestureDetector.detectCore_fst, hdecP j (by omega),
      GestureDetector.dragStep_held_fire _ (tm j) _ (hheldInv j hj le_rfl).1 hfireJ,
      if_neg (by simp)]
  · -- DRAG_MOVE on the K frames after it
    intro k h1 h2
    unfold GestureDetector.outD
    rw [GestureDetector.detectCore_fst, hdecP k (by omega),
      GestureDetector.dragStep_dragging_move _ (tm k) _ (hdragInv k h1 (by omega)),
      if_neg (by simp)]
  · -- DRAG_END on the release frame
    unfold GestureDetector.outD
    have hdecR : decide (d (tp (j + K + 1)) (ip (j + K + 1)) <
        (GestureDetector.stepsD d tm fr tp ip mp rp st0 (j + K + 1)).pinchThresh) = false := by
      rw [(hconf (j + K + 1)).1]
      exact decide_eq_false hrelease
    rw [GestureDetector.detectCore_fst, hdecR,
      GestureDetector.dragStep_dragging_end _ (tm (j + K + 1)) _
        (hdragInv (j + K + 1) (by omega) le_rfl),
      if_neg (by simp)]

/-- Concrete drag scenario: frames at t = 1000, 1300, 1600, 1900 ms. -/
def tmW : ℕ → ℚ := fun k => 1000 + 300 * k

/-- Pinched (0.019 m) on frames 0–2, released (0.021 m) from frame 3. -/
def frW : ℕ → List Point3 := fun k => if k ≤ 2 then fP else fR

def tpW : ℕ → Point3 := fun _ => p3 0

def ipW : ℕ → Point3 := fun k => if k ≤ 2 then p3 (19/1000) else p3 (21/1000)

def mpW : ℕ → Point3 := fun _ => p3 (1/2)

def rpW : ℕ → Point3 := fun _ => p3 (9/10)

/-- C4 witness: with j = 1, K = 1 the run emits DRAG_START at frame 1,
DRAG_MOVE at frame 2 and DRAG_END at frame 3. -/
theorem C4_drag_lifecycle_witness :
    (GestureDetector.init.dragState = DragState.RELEASED ∧
     distX (p3 0) (p3 (19/1000)) < GestureDetector.init.pinchThresh ∧
     ¬ distX (p3 0) (p3 (21/1000)) < GestureDetector.init.pinchThresh ∧
     GestureDetector.init.dragHoldMs < tmW 1 - tmW 0) ∧
    (GestureDetector.outD distX tmW frW tpW ipW mpW rpW GestureDetector.init 1 =
       some Gesture.DRAG_START ∧
     GestureDetector.outD distX tmW frW tpW ipW mpW rpW GestureDetector.init 2 =
       some Gesture.DRAG_MOVE ∧
     GestureDetector.outD distX tmW frW tpW ipW mpW rpW GestureDetector.init 3 =
       some Gesture.DRAG_END) := by
  have hp19 : distX (p3 0) (p3 (19/1000)) < GestureDetector.init.pinchThresh := by
    norm_num [distX, p3, GestureDetector.init, abs_eval, abs_eval_neg]
  have hp21 : ¬ distX (p3 0) (p3 (21/1000)) < GestureDetector.init.pinchThresh := by
    norm_num [distX, p3, GestureDetector.init, abs_eval, abs_eval_neg]
  have hfireW : GestureDetector.init.dragHoldMs < tmW 1 - tmW 0 := by
    norm_num [tmW, GestureDetector.init]
  have hgetW : ∀ k, (frW k).get? 4 = some (tpW k) ∧ (frW k).get? 8 = some (ipW k) ∧
      (frW k).get? 12 = some (mpW k) ∧ (frW k).get? 16 = some (rpW k) := by
    intro k
    by_cases hk : k ≤ 2 <;>
      simp [hk, frW, tpW, ipW, mpW, rpW, fP, fR, mkFrame, List.get?]
  have hpinchW : ∀ k, k ≤ 1 + 1 → distX (tpW k) (ipW k) < GestureDetector.init.pinchThresh := by
    intro k hk
    have hk2 : k ≤ 2 := by omega
    simpa [tpW, ipW, hk2] using hp19
  have hreleaseW : ¬ distX (tpW (1 + 1 + 1)) (ipW (1 + 1 + 1)) <
      GestureDetector.init.pinchThresh := by
    simpa [tpW, ipW] using hp21
  obtain ⟨hdet, hearly, hstart, hmove, hend⟩ :=
    C4_drag_lifecycle distX tmW frW tpW ipW mpW rpW GestureDetector.init hgetW rfl 1 1
      (by omega) hpinchW hreleaseW (by intro k h1 h2; omega) hfireW
  exact ⟨⟨rfl, hp19, hp21, hfireW⟩, hstart, hmove 2 (by omega) (by omega), hend⟩
